import Mathlib

/-!
# ATen/native/ForeachUtils.h

A shallow embedding of the argument validator (`check_foreach_api_restrictions`)
and of the fast-route classifier (`has_same_attributes`, `will_promote_tensor`,
`can_use_fast_route`) of `src/aten/src/ATen/native/ForeachUtils.h`, followed by
the properties proved about them.

Conventions of the embedding:

* a `TensorList` / `ArrayRef<Scalar>` is a `List`; `xs[i]` of the source is
  `xs[i]?`, and an access past the end is an explicit failure
  (`Err.indexOutOfRange` in the validator, `none` in the classifier);
* `TORCH_CHECK(c, msg...)` raises a structured error that carries exactly the
  values the message of the source streams out;
* the C++ overloads get a suffix: `2`, `3` for the number of tensor lists,
  `_scalar` for a single `Scalar`, `_scalars` for an `ArrayRef<Scalar>`;
* the preprocessor symbol `__HIP_PLATFORM_HCC__` is the first, Boolean,
  argument of every `can_use_fast_route` (`true` = the symbol is defined, that
  is, the platform is the excluded one);
* loop counters are natural numbers: list lengths are assumed to stay below
  `2^31`, so the `int` / `int64_t` counters of the source never wrap.
-/

namespace ForeachUtils

/-! ## Data model -/

/-- Element types, `c10::ScalarType` (the values behind `at::kFloat`, `at::kBool`, ...). -/
inductive ScalarType
  | kByte | kChar | kShort | kInt | kLong
  | kHalf | kFloat | kDouble
  | kComplexHalf | kComplexFloat | kComplexDouble
  | kBool
  | kQInt8 | kQUInt8 | kQInt32
  | kBFloat16
  deriving DecidableEq, Repr

/-- Modelled from the spec: `at::isIntegralType(t, includeBool)` of c10, which is
not under src/. Integral dtypes are the five integer types, plus `kBool` when
`includeBool` is set ("integral-or-boolean"). -/
def isIntegralType (t : ScalarType) (includeBool : Bool) : Bool :=
  (t = .kByte || t = .kChar || t = .kInt || t = .kLong || t = .kShort)
    || (includeBool && t = .kBool)

/-- Modelled from the spec: `at::isFloatingType` of c10, which is not under src/. -/
def isFloatingType (t : ScalarType) : Bool :=
  t = .kDouble || t = .kFloat || t = .kHalf || t = .kBFloat16

/-- Modelled from the spec: `at::isComplexType` of c10, which is not under src/. -/
def isComplexType (t : ScalarType) : Bool :=
  t = .kComplexHalf || t = .kComplexFloat || t = .kComplexDouble

/-- Kind of device, `c10::DeviceType`. -/
inductive DeviceType
  | CPU | CUDA | MKLDNN | OPENGL | OPENCL | IDEEP | HIP | FPGA | MSNPU | XLA | Vulkan
  deriving DecidableEq, Repr

/-- A `c10::Device`: a device type and an index; two devices are equal when both agree. -/
structure Device where
  type : DeviceType
  index : Int
  deriving DecidableEq, Repr

/-- Memory layout kind, `c10::Layout`. -/
inductive Layout
  | kStrided | kSparse | kMkldnn
  deriving DecidableEq, Repr

/-- The tag of a `c10::Scalar`: which member of its payload union is live. -/
inductive ScalarTag
  | HAS_d | HAS_i | HAS_z | HAS_b
  deriving DecidableEq, Repr

/-- A `c10::Scalar`. Only its tag is kept: ForeachUtils.h never reads the payload. -/
structure Scalar where
  tag : ScalarTag
  deriving DecidableEq, Repr

/-- Modelled from the spec: `Scalar::isFloatingPoint` of c10, which is not under src/. -/
def Scalar.isFloatingPoint (s : Scalar) : Bool := s.tag = .HAS_d

/-- Modelled from the spec: `Scalar::isBoolean` of c10, which is not under src/. -/
def Scalar.isBoolean (s : Scalar) : Bool := s.tag = .HAS_b

/-- Modelled from the spec: `Scalar::isIntegral(includeBool)` of c10, which is not under src/. -/
def Scalar.isIntegral (s : Scalar) (includeBool : Bool) : Bool :=
  s.tag = .HAS_i || (includeBool && s.isBoolean)

/-- Modelled from the spec: `Scalar::isComplex` of c10, which is not under src/. -/
def Scalar.isComplex (s : Scalar) : Bool := s.tag = .HAS_z

/-- The facts ForeachUtils.h reads off an `at::Tensor`. `scalar_type()` is the
`ScalarType` of `dtype()`, so one field serves both; the non-overlapping-and-dense
flag is the one cached by the tensor runtime. Every accessor, `strides()` included,
is a plain attribute that always yields a value, as for the TensorView of the
specification. -/
structure Tensor where
  sizes : List Int
  strides : List Int
  dtype : ScalarType
  device : Device
  layout : Layout
  is_non_overlapping_and_dense : Bool
  deriving DecidableEq, Repr

/-- The `tensor.scalar_type()` accessor. -/
def Tensor.scalar_type (t : Tensor) : ScalarType := t.dtype

/-! ## Restriction validator -/

/-- What a call of the validator can raise. Every constructor but the last is
one `TORCH_CHECK` message, with the values streamed into it. -/
inductive Err
  /-- Message "Tensor list must have at least one tensor." -/
  | emptyList
  /-- Message "Tensor list must have same number of elements as scalar list." -/
  | scalarCount
  /-- Message "Tensor lists must have the same number of tensors, got `n1` and `n2`". -/
  | listCount (n1 n2 : Nat)
  /-- Message "Corresponding tensors in lists must have the same size, got `s1` and `s2`". -/
  | sizeMismatch (s1 s2 : List Int)
  /-- Message "Tensor list must have same number of elements as scalar list, got `n1` and `n2`". -/
  | scalarCountGot (n1 n2 : Nat)
  /-- Not a `TORCH_CHECK`: an `ArrayRef` was indexed past its end. -/
  | indexOutOfRange
  deriving DecidableEq, Repr

/-- The `TORCH_CHECK(cond, msg...)` statement: raises `e` unless `cond` holds. -/
def TORCH_CHECK (cond : Bool) (e : Err) : Except Err Unit :=
  if cond then .ok () else .error e

/-- The statement `for (int i = 0; i < n; i++) body(i);` run over the indices
`is`, for a body that may raise. -/
def forCheck (body : Nat → Except Err Unit) : List Nat → Except Err Unit
  | [] => .ok ()
  | i :: is =>
    match body i with
    | .ok () => forCheck body is
    | .error e => .error e

/-- The overload `check_foreach_api_restrictions(TensorList tensors)`. -/
def check_foreach_api_restrictions (tensors : List Tensor) : Except Err Unit :=
  TORCH_CHECK (decide (tensors.length > 0)) .emptyList

/-- The overload `check_foreach_api_restrictions(TensorList tensors, ArrayRef<Scalar> scalars)`. -/
def check_foreach_api_restrictions_scalars (tensors : List Tensor) (scalars : List Scalar) :
    Except Err Unit :=
  match check_foreach_api_restrictions tensors with
  | .error e => .error e
  | .ok () => TORCH_CHECK (decide (tensors.length = scalars.length)) .scalarCount

/-- Body of the loop of the two-list validator at index `i`. -/
def check2_body (tensors1 tensors2 : List Tensor) (i : Nat) : Except Err Unit :=
  match tensors1[i]?, tensors2[i]? with
  | some a, some b => TORCH_CHECK (decide (a.sizes = b.sizes)) (.sizeMismatch a.sizes b.sizes)
  | _, _ => .error .indexOutOfRange

/-- The overload `check_foreach_api_restrictions(TensorList tensors1, TensorList tensors2)`. -/
def check_foreach_api_restrictions2 (tensors1 tensors2 : List Tensor) : Except Err Unit :=
  match TORCH_CHECK (decide (tensors1.length > 0)) .emptyList with
  | .error e => .error e
  | .ok () =>
  match TORCH_CHECK (decide (tensors2.length > 0)) .emptyList with
  | .error e => .error e
  | .ok () =>
  match TORCH_CHECK (decide (tensors1.length = tensors2.length))
      (.listCount tensors1.length tensors2.length) with
  | .error e => .error e
  | .ok () => forCheck (check2_body tensors1 tensors2) (List.range tensors1.length)

/-- Body of the loop of the three-list validator at index `i`. -/
def check3_body (tensors1 tensors2 tensors3 : List Tensor) (i : Nat) : Except Err Unit :=
  match tensors1[i]?, tensors2[i]? with
  | some a, some b =>
    match TORCH_CHECK (decide (a.sizes = b.sizes)) (.sizeMismatch a.sizes b.sizes) with
    | .error e => .error e
    | .ok () =>
      match tensors3[i]? with
      | some c => TORCH_CHECK (decide (a.sizes = c.sizes)) (.sizeMismatch a.sizes c.sizes)
      | none => .error .indexOutOfRange
  | _, _ => .error .indexOutOfRange

/-- The overload `check_foreach_api_restrictions(TensorList, TensorList, TensorList)`. -/
def check_foreach_api_restrictions3 (tensors1 tensors2 tensors3 : List Tensor) :
    Except Err Unit :=
  match TORCH_CHECK (decide (tensors1.length > 0)) .emptyList with
  | .error e => .error e
  | .ok () =>
  match TORCH_CHECK (decide (tensors2.length > 0)) .emptyList with
  | .error e => .error e
  | .ok () =>
  match TORCH_CHECK (decide (tensors3.length > 0)) .emptyList with
  | .error e => .error e
  | .ok () =>
  match TORCH_CHECK (decide (tensors1.length = tensors2.length))
      (.listCount tensors1.length tensors2.length) with
  | .error e => .error e
  | .ok () =>
  match TORCH_CHECK (decide (tensors1.length = tensors3.length))
      (.listCount tensors1.length tensors3.length) with
  | .error e => .error e
  | .ok () => forCheck (check3_body tensors1 tensors2 tensors3) (List.range tensors1.length)

/-- The overload
`check_foreach_api_restrictions(TensorList, TensorList, TensorList, ArrayRef<Scalar>)`. -/
def check_foreach_api_restrictions3_scalars (tensors1 tensors2 tensors3 : List Tensor)
    (scalars : List Scalar) : Except Err Unit :=
  match check_foreach_api_restrictions3 tensors1 tensors2 tensors3 with
  | .error e => .error e
  | .ok () =>
    TORCH_CHECK (decide (tensors1.length = scalars.length))
      (.scalarCountGot tensors1.length scalars.length)

/-! ## Fast-route classifier -/

/-- What one pass through a loop body does: `return b;` or fall through to the
next iteration. -/
inductive Step
  | ret (b : Bool)
  | next
  deriving DecidableEq, Repr

/-- A loop over `xs` followed by the statements `after`. The body fails (`none`)
when it indexes a list past its end, returns from the function (`Step.ret`) or
goes on to the next element. -/
def forLoop {α : Type} (body : α → Option Step) (after : Option Bool) : List α → Option Bool
  | [] => after
  | x :: xs =>
    match body x with
    | none => none
    | some (.ret b) => some b
    | some .next => forLoop body after xs

/-- Body of the loop of `has_same_attributes` for the tensor `t`. -/
def has_same_attributes_body (expected_device : Device) (expected_dtype : ScalarType)
    (expected_strides : List Int) (t : Tensor) : Option Step :=
  if t.dtype ≠ expected_dtype then some (.ret false)
  else if t.device ≠ expected_device then some (.ret false)
  else if t.layout ≠ .kStrided then some (.ret false)
  else if !t.is_non_overlapping_and_dense then some (.ret false)
  else if t.strides ≠ expected_strides then some (.ret false)
  else some .next

/-- The function `has_same_attributes(expected_device, expected_dtype, tensors)`. -/
def has_same_attributes (expected_device : Device) (expected_dtype : ScalarType)
    (tensors : List Tensor) : Option Bool :=
  match tensors[0]? with
  | none => none
  | some t0 =>
    forLoop (has_same_attributes_body expected_device expected_dtype t0.strides)
      (some true) tensors

/-- The function `will_promote_tensor(tensor, scalar, division_op)`. -/
def will_promote_tensor (tensor : Tensor) (scalar : Scalar) (division_op : Bool) : Bool :=
  if scalar.isComplex && isIntegralType tensor.scalar_type true then true
  else if scalar.isComplex && isFloatingType tensor.scalar_type then true
  else if scalar.isFloatingPoint && isIntegralType tensor.scalar_type true then true
  else if scalar.isIntegral false && decide (tensor.dtype = .kBool) then true
  else if division_op then
    if isIntegralType tensor.scalar_type true then true else false
  else false

/-- Turns the outcome of the test `if (!has_same_attributes(...)) return false;`
into a step: `k` is what the rest of the loop body does. -/
def unlessSame (same : Option Bool) (k : Option Step) : Option Step :=
  match same with
  | none => none
  | some false => some (.ret false)
  | some true => k

/-- Body of the loop of `can_use_fast_route(TensorList)`. -/
def route1_body (expected_device : Device) (expected_dtype : ScalarType) (t : Tensor) :
    Option Step :=
  unlessSame (has_same_attributes expected_device expected_dtype [t]) (some .next)

/-- The overload `can_use_fast_route(TensorList tensors)`. -/
def can_use_fast_route (HIP_PLATFORM_HCC : Bool) (tensors : List Tensor) : Option Bool :=
  if HIP_PLATFORM_HCC then some false
  else
    match tensors[0]? with
    | none => none
    | some t0 => forLoop (route1_body t0.device t0.dtype) (some true) tensors

/-- Body of the loop of `can_use_fast_route(TensorList, Scalar, bool)`. -/
def route1_scalar_body (expected_device : Device) (expected_dtype : ScalarType)
    (scalar : Scalar) (division_op : Bool) (t : Tensor) : Option Step :=
  unlessSame (has_same_attributes expected_device expected_dtype [t])
    (if will_promote_tensor t scalar division_op then some (.ret false) else some .next)

/-- The overload `can_use_fast_route(TensorList tensors, Scalar scalar, bool division_op)`. -/
def can_use_fast_route_scalar (HIP_PLATFORM_HCC : Bool) (tensors : List Tensor)
    (scalar : Scalar) (division_op : Bool) : Option Bool :=
  if HIP_PLATFORM_HCC then some false
  else
    match tensors[0]? with
    | none => none
    | some t0 =>
      forLoop (route1_scalar_body t0.device t0.dtype scalar division_op) (some true) tensors

/-- Body of the loop of `can_use_fast_route(TensorList, ArrayRef<Scalar>, bool)` at index `i`. -/
def route1_scalars_body (tensors : List Tensor) (scalars : List Scalar) (division_op : Bool)
    (i : Nat) : Option Step :=
  match tensors[i]?, scalars[i]? with
  | some t, some s =>
    if will_promote_tensor t s division_op then some (.ret false)
    else if s.isComplex || isComplexType t.scalar_type then some (.ret false)
    else some .next
  | _, _ => none

/-- The overload
`can_use_fast_route(TensorList tensors, ArrayRef<Scalar> scalars, bool division_op)`. -/
def can_use_fast_route_scalars (HIP_PLATFORM_HCC : Bool) (tensors : List Tensor)
    (scalars : List Scalar) (division_op : Bool) : Option Bool :=
  if HIP_PLATFORM_HCC then some false
  else forLoop (route1_scalars_body tensors scalars division_op) (some true)
    (List.range tensors.length)

/-- Body of the loop of `can_use_fast_route(TensorList, TensorList, bool)` at index `i`. -/
def route2_body (expected_device : Device) (expected_dtype : ScalarType)
    (tensors1 tensors2 : List Tensor) (division_op : Bool) (i : Nat) : Option Step :=
  match tensors1[i]?, tensors2[i]? with
  | some a, some b =>
    unlessSame (has_same_attributes expected_device expected_dtype [a, b])
      (if division_op then
        if isIntegralType a.scalar_type true then some (.ret false) else some .next
      else some .next)
  | _, _ => none

/-- The overload
`can_use_fast_route(TensorList tensors1, TensorList tensors2, bool division_op)`. -/
def can_use_fast_route2 (HIP_PLATFORM_HCC : Bool) (tensors1 tensors2 : List Tensor)
    (division_op : Bool) : Option Bool :=
  if HIP_PLATFORM_HCC then some false
  else
    match tensors1[0]? with
    | none => none
    | some t0 =>
      forLoop (route2_body t0.device t0.dtype tensors1 tensors2 division_op) (some true)
        (List.range tensors1.length)

/-- Body of the loop of `can_use_fast_route(TensorList, TensorList, Scalar)` at index `i`;
`will_promote_tensor` is called with its default `division_op = false`. -/
def route2_scalar_body (expected_device : Device) (expected_dtype : ScalarType)
    (tensors1 tensors2 : List Tensor) (scalar : Scalar) (i : Nat) : Option Step :=
  match tensors1[i]?, tensors2[i]? with
  | some a, some b =>
    unlessSame (has_same_attributes expected_device expected_dtype [a, b])
      (if will_promote_tensor a scalar false then some (.ret false) else some .next)
  | _, _ => none

/-- The overload `can_use_fast_route(TensorList tensors1, TensorList tensors2, Scalar scalar)`. -/
def can_use_fast_route2_scalar (HIP_PLATFORM_HCC : Bool) (tensors1 tensors2 : List Tensor)
    (scalar : Scalar) : Option Bool :=
  if HIP_PLATFORM_HCC then some false
  else
    match tensors1[0]? with
    | none => none
    | some t0 =>
      forLoop (route2_scalar_body t0.device t0.dtype tensors1 tensors2 scalar) (some true)
        (List.range tensors1.length)

/-- Body of the loop of `can_use_fast_route(TensorList, TensorList, TensorList)` at index `i`. -/
def route3_body (expected_device : Device) (expected_dtype : ScalarType)
    (tensors1 tensors2 tensors3 : List Tensor) (i : Nat) : Option Step :=
  match tensors1[i]?, tensors2[i]?, tensors3[i]? with
  | some a, some b, some c =>
    unlessSame (has_same_attributes expected_device expected_dtype [a, b, c]) (some .next)
  | _, _, _ => none

/-- The overload `can_use_fast_route(TensorList, TensorList, TensorList)`. -/
def can_use_fast_route3 (HIP_PLATFORM_HCC : Bool) (tensors1 tensors2 tensors3 : List Tensor) :
    Option Bool :=
  if HIP_PLATFORM_HCC then some false
  else
    match tensors1[0]? with
    | none => none
    | some t0 =>
      forLoop (route3_body t0.device t0.dtype tensors1 tensors2 tensors3) (some true)
        (List.range tensors1.length)

/-- Body of the loop of `can_use_fast_route(TensorList, TensorList, TensorList, Scalar)` at
index `i`; `will_promote_tensor` is called with its default `division_op = false`. -/
def route3_scalar_body (expected_device : Device) (expected_dtype : ScalarType)
    (tensors1 tensors2 tensors3 : List Tensor) (scalar : Scalar) (i : Nat) : Option Step :=
  match tensors1[i]?, tensors2[i]?, tensors3[i]? with
  | some a, some b, some c =>
    unlessSame (has_same_attributes expected_device expected_dtype [a, b, c])
      (if will_promote_tensor a scalar false then some (.ret false) else some .next)
  | _, _, _ => none

/-- The overload `can_use_fast_route(TensorList, TensorList, TensorList, Scalar)`. -/
def can_use_fast_route3_scalar (HIP_PLATFORM_HCC : Bool)
    (tensors1 tensors2 tensors3 : List Tensor) (scalar : Scalar) : Option Bool :=
  if HIP_PLATFORM_HCC then some false
  else
    match tensors1[0]? with
    | none => none
    | some t0 =>
      forLoop (route3_scalar_body t0.device t0.dtype tensors1 tensors2 tensors3 scalar)
        (some true) (List.range tensors1.length)

/-- The overload `can_use_fast_route(TensorList, TensorList, TensorList, ArrayRef<Scalar>)`:
it forwards to the three-list overload and does not look at `scalars`. -/
def can_use_fast_route3_scalars (HIP_PLATFORM_HCC : Bool)
    (tensors1 tensors2 tensors3 : List Tensor) (_scalars : List Scalar) : Option Bool :=
  can_use_fast_route3 HIP_PLATFORM_HCC tensors1 tensors2 tensors3

/-! ## Specification predicates -/

/-- The five conditions `has_same_attributes` asks of one tensor: the expected
dtype, the expected device, strided layout, non-overlapping-and-dense, and the
expected strides. -/
def SameAttributes (expected_device : Device) (expected_dtype : ScalarType)
    (expected_strides : List Int) (t : Tensor) : Prop :=
  t.dtype = expected_dtype ∧ t.device = expected_device ∧ t.layout = .kStrided ∧
    t.is_non_overlapping_and_dense = true ∧ t.strides = expected_strides

instance (expected_device : Device) (expected_dtype : ScalarType)
    (expected_strides : List Int) (t : Tensor) :
    Decidable (SameAttributes expected_device expected_dtype expected_strides t) := by
  unfold SameAttributes
  infer_instance

/-- What the fast route asks of a tensor `t` relative to the first tensor `t0` of the
first list: the same device, the same dtype, strided layout and
non-overlapping-and-dense. -/
def SharesFirst (t0 t : Tensor) : Prop :=
  t.device = t0.device ∧ t.dtype = t0.dtype ∧ t.layout = .kStrided ∧
    t.is_non_overlapping_and_dense = true

/-- One rule of the specification of `will_promote`: a condition on the dtype of the
tensor, the scalar and the division flag, and the verdict given when it applies. -/
structure Rule where
  applies : ScalarType → Scalar → Bool → Bool
  promotes : Bool

/-- Rule 1 of the specification: complex scalar and integral-or-boolean tensor. -/
def rule1 : Rule := ⟨fun dt s _ => s.isComplex && isIntegralType dt true, true⟩

/-- Rule 2 of the specification: complex scalar and floating tensor. -/
def rule2 : Rule := ⟨fun dt s _ => s.isComplex && isFloatingType dt, true⟩

/-- Rule 3 of the specification: floating scalar and integral-or-boolean tensor. -/
def rule3 : Rule := ⟨fun dt s _ => s.isFloatingPoint && isIntegralType dt true, true⟩

/-- Rule 4 of the specification: integral (non-boolean) scalar and boolean tensor. -/
def rule4 : Rule := ⟨fun dt s _ => s.isIntegral false && decide (dt = .kBool), true⟩

/-- Rule 5 of the specification: a division on an integral-or-boolean tensor. -/
def rule5 : Rule := ⟨fun dt _ d => d && isIntegralType dt true, true⟩

/-- The conditional rules of the specification in the specified order 1..5. -/
def specRules : List Rule := [rule1, rule2, rule3, rule4, rule5]

/-- First-match-wins evaluation of a list of rules as the specification words it:
the first rule that applies gives the verdict; when none applies, rule 6
("otherwise"), the default, answers "does not promote". -/
def firstMatch : List Rule → ScalarType → Scalar → Bool → Bool
  | [], _, _, _ => false
  | r :: rs, dt, s, d => if r.applies dt s d then r.promotes else firstMatch rs dt s d

/-! ## Sample inputs -/

/-- The CPU device (`Device(kCPU)`, index -1). -/
def cpu : Device := ⟨.CPU, -1⟩

/-- The first CUDA device. -/
def cuda0 : Device := ⟨.CUDA, 0⟩

/-- A contiguous 2x3 tensor of the given dtype on the CPU. -/
def contig23 (dt : ScalarType) : Tensor :=
  { sizes := [2, 3], strides := [3, 1], dtype := dt, device := cpu, layout := .kStrided,
    is_non_overlapping_and_dense := true }

/-- A 2x3 tensor in column-major order (the transpose of a contiguous 3x2 tensor):
dense and non-overlapping, with strides that differ from the contiguous ones. -/
def colMajor23 (dt : ScalarType) : Tensor :=
  { sizes := [2, 3], strides := [1, 2], dtype := dt, device := cpu, layout := .kStrided,
    is_non_overlapping_and_dense := true }

/-- A contiguous vector of `n` floats on the CPU. -/
def vec (n : Int) : Tensor :=
  { sizes := [n], strides := [1], dtype := .kFloat, device := cpu, layout := .kStrided,
    is_non_overlapping_and_dense := true }

/-- Every second element of a float vector of length four (`x[::2]`): strided layout,
not dense. -/
def everySecond : Tensor :=
  { sizes := [2], strides := [2], dtype := .kFloat, device := cpu, layout := .kStrided,
    is_non_overlapping_and_dense := false }

/-- A floating-point scalar. -/
def sFloat : Scalar := ⟨.HAS_d⟩

/-- An integral scalar. -/
def sInt : Scalar := ⟨.HAS_i⟩

/-- A complex scalar. -/
def sComplex : Scalar := ⟨.HAS_z⟩

/-- A Boolean scalar. -/
def sBool : Scalar := ⟨.HAS_b⟩

/-! ## Auxiliary facts about the loops -/

theorem TORCH_CHECK_ok_iff (c : Bool) (e : Err) : TORCH_CHECK c e = .ok () ↔ c = true := by
  unfold TORCH_CHECK
  cases c <;> simp

theorem TORCH_CHECK_error_iff (c : Bool) (e e2 : Err) :
    TORCH_CHECK c e = .error e2 ↔ c = false ∧ e2 = e := by
  unfold TORCH_CHECK
  cases c <;> simp [eq_comm]

theorem forCheck_ok_iff (body : Nat → Except Err Unit) (is : List Nat) :
    forCheck body is = .ok () ↔ ∀ i ∈ is, body i = .ok () := by
  induction is with
  | nil => simp [forCheck]
  | cons i is ih =>
    simp only [forCheck, List.mem_cons, forall_eq_or_imp]
    cases hb : body i with
    | error e => simp
    | ok u => cases u; simpa using ih

theorem forCheck_error (body : Nat → Except Err Unit) (is : List Nat) (e : Err)
    (h : forCheck body is = .error e) : ∃ i ∈ is, body i = .error e := by
  induction is with
  | nil => simp [forCheck] at h
  | cons i is ih =>
    simp only [forCheck] at h
    cases hb : body i with
    | error e2 =>
      rw [hb] at h
      simp only [Except.error.injEq] at h
      exact ⟨i, List.mem_cons_self _ _, by rw [hb, h]⟩
    | ok u =>
      cases u
      rw [hb] at h
      obtain ⟨j, hj, hje⟩ := ih h
      exact ⟨j, List.mem_cons_of_mem _ hj, hje⟩

theorem check2_body_ok_iff (tensors1 tensors2 : List Tensor) (i : Nat) :
    check2_body tensors1 tensors2 i = .ok () ↔
      ∃ a b, tensors1[i]? = some a ∧ tensors2[i]? = some b ∧ a.sizes = b.sizes := by
  unfold check2_body
  cases h1 : tensors1[i]? <;> cases h2 : tensors2[i]? <;> simp [TORCH_CHECK_ok_iff]

theorem check3_body_ok_iff (tensors1 tensors2 tensors3 : List Tensor) (i : Nat) :
    check3_body tensors1 tensors2 tensors3 i = .ok () ↔
      ∃ a b c, tensors1[i]? = some a ∧ tensors2[i]? = some b ∧ tensors3[i]? = some c ∧
        a.sizes = b.sizes ∧ a.sizes = c.sizes := by
  unfold check3_body
  cases h1 : tensors1[i]? with
  | none => simp
  | some a =>
    cases h2 : tensors2[i]? with
    | none => simp
    | some b =>
      by_cases hab : a.sizes = b.sizes
      · cases h3 : tensors3[i]? with
        | none => simp [TORCH_CHECK, hab]
        | some c => simp [TORCH_CHECK, hab]
      · simp [TORCH_CHECK, hab]

theorem check1_ok_iff (tensors : List Tensor) :
    check_foreach_api_restrictions tensors = .ok () ↔ 0 < tensors.length := by
  simp [check_foreach_api_restrictions, TORCH_CHECK_ok_iff]

theorem check1_scalars_ok_iff (tensors : List Tensor) (scalars : List Scalar) :
    check_foreach_api_restrictions_scalars tensors scalars = .ok () ↔
      0 < tensors.length ∧ tensors.length = scalars.length := by
  unfold check_foreach_api_restrictions_scalars check_foreach_api_restrictions TORCH_CHECK
  by_cases h : 0 < tensors.length <;> simp [h]

theorem check2_ok_iff (tensors1 tensors2 : List Tensor) :
    check_foreach_api_restrictions2 tensors1 tensors2 = .ok () ↔
      0 < tensors1.length ∧ 0 < tensors2.length ∧ tensors1.length = tensors2.length ∧
      ∀ (i : Nat) (a b : Tensor),
        tensors1[i]? = some a → tensors2[i]? = some b → a.sizes = b.sizes := by
  unfold check_foreach_api_restrictions2 TORCH_CHECK
  by_cases h1 : 0 < tensors1.length
  swap
  · simp [h1]
  by_cases h2 : 0 < tensors2.length
  swap
  · simp [h1, h2]
  by_cases h3 : tensors1.length = tensors2.length
  swap
  · simp [h1, h2, h3]
  simp only [gt_iff_lt, decide_eq_true_eq, if_pos h1, if_pos h2, if_pos h3]
  rw [forCheck_ok_iff]
  constructor
  · intro h
    refine ⟨h1, h2, h3, ?_⟩
    intro i a b ha hb
    have hi : i < tensors1.length := by
      rcases List.getElem?_eq_some.mp ha with ⟨hlt, _⟩
      exact hlt
    obtain ⟨a2, b2, ha2, hb2, hs⟩ := (check2_body_ok_iff _ _ _).mp (h i (List.mem_range.mpr hi))
    rw [ha] at ha2
    rw [hb] at hb2
    cases ha2
    cases hb2
    exact hs
  · rintro ⟨-, -, -, h⟩ i hi
    have hi1 : i < tensors1.length := List.mem_range.mp hi
    have hi2 : i < tensors2.length := h3 ▸ hi1
    refine (check2_body_ok_iff _ _ _).mpr ⟨tensors1[i], tensors2[i], ?_, ?_, ?_⟩
    · exact List.getElem?_eq_getElem hi1
    · exact List.getElem?_eq_getElem hi2
    · exact h i _ _ (List.getElem?_eq_getElem hi1) (List.getElem?_eq_getElem hi2)

theorem check3_ok_iff (tensors1 tensors2 tensors3 : List Tensor) :
    check_foreach_api_restrictions3 tensors1 tensors2 tensors3 = .ok () ↔
      0 < tensors1.length ∧ 0 < tensors2.length ∧ 0 < tensors3.length ∧
      tensors1.length = tensors2.length ∧ tensors1.length = tensors3.length ∧
      ∀ (i : Nat) (a b c : Tensor),
        tensors1[i]? = some a → tensors2[i]? = some b → tensors3[i]? = some c →
        a.sizes = b.sizes ∧ a.sizes = c.sizes := by
  unfold check_foreach_api_restrictions3 TORCH_CHECK
  by_cases h1 : 0 < tensors1.length
  swap
  · simp [h1]
  by_cases h2 : 0 < tensors2.length
  swap
  · simp [h1, h2]
  by_cases h3 : 0 < tensors3.length
  swap
  · simp [h1, h2, h3]
  by_cases h4 : tensors1.length = tensors2.length
  swap
  · simp [h1, h2, h3, h4]
  by_cases h5 : tensors1.length = tensors3.length
  swap
  · simp only [gt_iff_lt, decide_eq_true_eq, if_pos h1, if_pos h2, if_pos h3, if_pos h4,
      if_neg h5]
    simp [h5]
  simp only [gt_iff_lt, decide_eq_true_eq, if_pos h1, if_pos h2, if_pos h3, if_pos h4, if_pos h5]
  rw [forCheck_ok_iff]
  constructor
  · intro h
    refine ⟨h1, h2, h3, h4, h5, ?_⟩
    intro i a b c ha hb hc
    have hi : i < tensors1.length := by
      rcases List.getElem?_eq_some.mp ha with ⟨hlt, _⟩
      exact hlt
    obtain ⟨a2, b2, c2, ha2, hb2, hc2, hs⟩ :=
      (check3_body_ok_iff _ _ _ _).mp (h i (List.mem_range.mpr hi))
    rw [ha] at ha2
    rw [hb] at hb2
    rw [hc] at hc2
    cases ha2
    cases hb2
    cases hc2
    exact hs
  · rintro ⟨-, -, -, -, -, h⟩ i hi
    have hi1 : i < tensors1.length := List.mem_range.mp hi
    have hi2 : i < tensors2.length := h4 ▸ hi1
    have hi3 : i < tensors3.length := h5 ▸ hi1
    refine (check3_body_ok_iff _ _ _ _).mpr ⟨tensors1[i], tensors2[i], tensors3[i], ?_, ?_, ?_, ?_⟩
    · exact List.getElem?_eq_getElem hi1
    · exact List.getElem?_eq_getElem hi2
    · exact List.getElem?_eq_getElem hi3
    · exact h i _ _ _ (List.getElem?_eq_getElem hi1) (List.getElem?_eq_getElem hi2)
        (List.getElem?_eq_getElem hi3)

theorem check3_scalars_ok_iff (tensors1 tensors2 tensors3 : List Tensor)
    (scalars : List Scalar) :
    check_foreach_api_restrictions3_scalars tensors1 tensors2 tensors3 scalars = .ok () ↔
      check_foreach_api_restrictions3 tensors1 tensors2 tensors3 = .ok () ∧
      tensors1.length = scalars.length := by
  unfold check_foreach_api_restrictions3_scalars
  cases h : check_foreach_api_restrictions3 tensors1 tensors2 tensors3 with
  | error e => simp
  | ok u => cases u; simp [TORCH_CHECK_ok_iff]

theorem check2_body_error (tensors1 tensors2 : List Tensor) (i : Nat) (a b : Tensor) (e : Err)
    (ha : tensors1[i]? = some a) (hb : tensors2[i]? = some b)
    (h : check2_body tensors1 tensors2 i = .error e) :
    a.sizes ≠ b.sizes ∧ e = .sizeMismatch a.sizes b.sizes := by
  unfold check2_body at h
  rw [ha, hb] at h
  simp only [TORCH_CHECK_error_iff, decide_eq_false_iff_not] at h
  exact h

theorem check3_body_error (tensors1 tensors2 tensors3 : List Tensor) (i : Nat)
    (a b c : Tensor) (e : Err)
    (ha : tensors1[i]? = some a) (hb : tensors2[i]? = some b) (hc : tensors3[i]? = some c)
    (h : check3_body tensors1 tensors2 tensors3 i = .error e) :
    (a.sizes ≠ b.sizes ∧ e = .sizeMismatch a.sizes b.sizes) ∨
    (a.sizes ≠ c.sizes ∧ e = .sizeMismatch a.sizes c.sizes) := by
  unfold check3_body at h
  rw [ha, hb] at h
  by_cases hab : a.sizes = b.sizes
  · right
    simp only [TORCH_CHECK, hab, decide_True, if_true, hc] at h
    by_cases hbc : b.sizes = c.sizes
    · simp [hbc] at h
    · simp only [hbc, decide_False] at h
      simp only [Bool.false_eq_true, if_false, Except.error.injEq] at h
      rw [hab]
      exact ⟨hbc, h.symm⟩
  · left
    simp only [TORCH_CHECK, hab, decide_False, Bool.false_eq_true, if_false,
      Except.error.injEq] at h
    exact ⟨hab, h.symm⟩

theorem forCheck_raises (body : Nat → Except Err Unit) (is : List Nat)
    (h : ∃ i ∈ is, body i ≠ .ok ()) : ∃ e, forCheck body is = .error e := by
  cases hr : forCheck body is with
  | error e => exact ⟨e, rfl⟩
  | ok u =>
    cases u
    obtain ⟨i, hi, hne⟩ := h
    exact absurd ((forCheck_ok_iff body is).mp hr i hi) hne

/-! ## The validator accepts exactly the well-formed calls -/

/-- C1: each overload of `check_foreach_api_restrictions` succeeds if and only if
every supplied tensor list is non-empty, all supplied tensor lists have the same
length, at every index the shapes of all co-indexed tensors are identical (for
three lists also `tensors2[i]` against `tensors3[i]`), and a supplied scalar list
has the length of the tensor lists. -/
theorem check_foreach_api_restrictions_accepts_iff
    (tensors1 tensors2 tensors3 : List Tensor) (scalars : List Scalar) :
    (check_foreach_api_restrictions tensors1 = .ok () ↔ 0 < tensors1.length) ∧
    (check_foreach_api_restrictions_scalars tensors1 scalars = .ok () ↔
      0 < tensors1.length ∧ scalars.length = tensors1.length) ∧
    (check_foreach_api_restrictions2 tensors1 tensors2 = .ok () ↔
      (0 < tensors1.length ∧ 0 < tensors2.length) ∧ tensors1.length = tensors2.length ∧
      ∀ (i : Nat) (a b : Tensor),
        tensors1[i]? = some a → tensors2[i]? = some b → a.sizes = b.sizes) ∧
    (check_foreach_api_restrictions3 tensors1 tensors2 tensors3 = .ok () ↔
      (0 < tensors1.length ∧ 0 < tensors2.length ∧ 0 < tensors3.length) ∧
      (tensors1.length = tensors2.length ∧ tensors2.length = tensors3.length) ∧
      ∀ (i : Nat) (a b c : Tensor),
        tensors1[i]? = some a → tensors2[i]? = some b → tensors3[i]? = some c →
        a.sizes = b.sizes ∧ a.sizes = c.sizes ∧ b.sizes = c.sizes) ∧
    (check_foreach_api_restrictions3_scalars tensors1 tensors2 tensors3 scalars = .ok () ↔
      (0 < tensors1.length ∧ 0 < tensors2.length ∧ 0 < tensors3.length) ∧
      (tensors1.length = tensors2.length ∧ tensors2.length = tensors3.length) ∧
      (∀ (i : Nat) (a b c : Tensor),
        tensors1[i]? = some a → tensors2[i]? = some b → tensors3[i]? = some c →
        a.sizes = b.sizes ∧ a.sizes = c.sizes ∧ b.sizes = c.sizes) ∧
      scalars.length = tensors1.length) := by
  have h3 : check_foreach_api_restrictions3 tensors1 tensors2 tensors3 = .ok () ↔
      (0 < tensors1.length ∧ 0 < tensors2.length ∧ 0 < tensors3.length) ∧
      (tensors1.length = tensors2.length ∧ tensors2.length = tensors3.length) ∧
      ∀ (i : Nat) (a b c : Tensor),
        tensors1[i]? = some a → tensors2[i]? = some b → tensors3[i]? = some c →
        a.sizes = b.sizes ∧ a.sizes = c.sizes ∧ b.sizes = c.sizes := by
    rw [check3_ok_iff]
    constructor
    · rintro ⟨p1, p2, p3, e12, e13, hs⟩
      refine ⟨⟨p1, p2, p3⟩, ⟨e12, e12.symm.trans e13⟩, ?_⟩
      intro i a b c ha hb hc
      obtain ⟨hab, hac⟩ := hs i a b c ha hb hc
      exact ⟨hab, hac, hab.symm.trans hac⟩
    · rintro ⟨⟨p1, p2, p3⟩, ⟨e12, e23⟩, hs⟩
      refine ⟨p1, p2, p3, e12, e12.trans e23, ?_⟩
      intro i a b c ha hb hc
      obtain ⟨hab, hac, -⟩ := hs i a b c ha hb hc
      exact ⟨hab, hac⟩
  refine ⟨check1_ok_iff tensors1, ?_, ?_, h3, ?_⟩
  · rw [check1_scalars_ok_iff]
    constructor
    · rintro ⟨p, e⟩
      exact ⟨p, e.symm⟩
    · rintro ⟨p, e⟩
      exact ⟨p, e.symm⟩
  · rw [check2_ok_iff]
    constructor
    · rintro ⟨p1, p2, e, hs⟩
      exact ⟨⟨p1, p2⟩, e, hs⟩
    · rintro ⟨⟨p1, p2⟩, e, hs⟩
      exact ⟨p1, p2, e, hs⟩
  · rw [check3_scalars_ok_iff, h3]
    constructor
    · rintro ⟨⟨p, e, hs⟩, el⟩
      exact ⟨p, e, hs, el.symm⟩
    · rintro ⟨p, e, hs, el⟩
      exact ⟨⟨p, e, hs⟩, el.symm⟩

/-! ## Errors raised by the validator -/

/-- C14, refuted as stated: the first list is empty and the second holds one
tensor, so the lengths differ, yet the error raised is the empty-list error, which
carries no length. -/
theorem length_mismatch_error_counterexample :
    ([] : List Tensor).length ≠ [vec 2].length ∧
    check_foreach_api_restrictions2 [] [vec 2] = .error .emptyList ∧
    ∀ n1 n2 : Nat, check_foreach_api_restrictions2 [] [vec 2] ≠ .error (.listCount n1 n2) := by
  refine ⟨by decide, rfl, ?_⟩
  intro n1 n2 h
  have h2 : check_foreach_api_restrictions2 [] [vec 2] = .error .emptyList := rfl
  rw [h2] at h
  cases h

/-- C14, amended: when two of the supplied tensor lists differ in length the
two-list and the three-list validator raise; if moreover every supplied list is
non-empty, the error is the length-mismatch error and carries two differing
lengths: that of `tensors1` and that of `tensors2`, or, when these agree, that of
`tensors3`. -/
theorem length_mismatch_error (tensors1 tensors2 tensors3 : List Tensor) :
    (tensors1.length ≠ tensors2.length →
      ∃ e, check_foreach_api_restrictions2 tensors1 tensors2 = .error e) ∧
    ((tensors1.length ≠ tensors2.length ∨ tensors1.length ≠ tensors3.length ∨
        tensors2.length ≠ tensors3.length) →
      ∃ e, check_foreach_api_restrictions3 tensors1 tensors2 tensors3 = .error e) ∧
    (0 < tensors1.length → 0 < tensors2.length → tensors1.length ≠ tensors2.length →
      check_foreach_api_restrictions2 tensors1 tensors2 =
        .error (.listCount tensors1.length tensors2.length)) ∧
    (0 < tensors1.length → 0 < tensors2.length → 0 < tensors3.length →
      (tensors1.length ≠ tensors2.length ∨ tensors1.length ≠ tensors3.length ∨
        tensors2.length ≠ tensors3.length) →
      (tensors1.length ≠ tensors2.length ∧
        check_foreach_api_restrictions3 tensors1 tensors2 tensors3 =
          .error (.listCount tensors1.length tensors2.length)) ∨
      (tensors1.length = tensors2.length ∧ tensors1.length ≠ tensors3.length ∧
        check_foreach_api_restrictions3 tensors1 tensors2 tensors3 =
          .error (.listCount tensors1.length tensors3.length))) := by
  refine ⟨?_, ?_, ?_, ?_⟩
  · intro hne
    cases hr : check_foreach_api_restrictions2 tensors1 tensors2 with
    | error e => exact ⟨e, rfl⟩
    | ok u =>
      cases u
      exact absurd ((check2_ok_iff _ _).mp hr).2.2.1 hne
  · intro hne
    cases hr : check_foreach_api_restrictions3 tensors1 tensors2 tensors3 with
    | error e => exact ⟨e, rfl⟩
    | ok u =>
      cases u
      obtain ⟨-, -, -, e12, e13, -⟩ := (check3_ok_iff _ _ _).mp hr
      rcases hne with h | h | h
      · exact absurd e12 h
      · exact absurd e13 h
      · exact absurd (e12.symm.trans e13) h
  · intro p1 p2 hne
    unfold check_foreach_api_restrictions2 TORCH_CHECK
    simp only [gt_iff_lt, decide_eq_true_eq, if_pos p1, if_pos p2, if_neg hne]
  · intro p1 p2 p3 hne
    unfold check_foreach_api_restrictions3 TORCH_CHECK
    by_cases e12 : tensors1.length = tensors2.length
    · right
      have e13 : tensors1.length ≠ tensors3.length := by
        rcases hne with h | h | h
        · exact absurd e12 h
        · exact h
        · exact fun e13 => h (e12.symm.trans e13)
      refine ⟨e12, e13, ?_⟩
      simp only [gt_iff_lt, decide_eq_true_eq, if_pos p1, if_pos p2, if_pos p3, if_pos e12,
        if_neg e13]
    · left
      refine ⟨e12, ?_⟩
      simp only [gt_iff_lt, decide_eq_true_eq, if_pos p1, if_pos p2, if_pos p3, if_neg e12]

/-- C14, an instance: one tensor against two tensors raises the length-mismatch
error with the lengths 1 and 2. -/
theorem length_mismatch_error_witness :
    check_foreach_api_restrictions2 [vec 2] [vec 2, vec 2] = .error (.listCount 1 2) :=
  (length_mismatch_error [vec 2] [vec 2, vec 2] [vec 2]).2.2.1
    (by decide) (by decide) (by decide)

theorem check2_raises_sizeMismatch (tensors1 tensors2 : List Tensor)
    (hpos : 0 < tensors1.length) (hlen : tensors1.length = tensors2.length)
    (hbad : ∃ (i : Nat) (a b : Tensor),
      tensors1[i]? = some a ∧ tensors2[i]? = some b ∧ a.sizes ≠ b.sizes) :
    ∃ (i : Nat) (a b : Tensor),
      tensors1[i]? = some a ∧ tensors2[i]? = some b ∧ a.sizes ≠ b.sizes ∧
      check_foreach_api_restrictions2 tensors1 tensors2 =
        .error (.sizeMismatch a.sizes b.sizes) := by
  have hpos2 : 0 < tensors2.length := hlen ▸ hpos
  cases hr : check_foreach_api_restrictions2 tensors1 tensors2 with
  | ok u =>
    cases u
    obtain ⟨i, a, b, ha, hb, hne⟩ := hbad
    exact absurd (((check2_ok_iff _ _).mp hr).2.2.2 i a b ha hb) hne
  | error e =>
    have hloop : forCheck (check2_body tensors1 tensors2) (List.range tensors1.length) =
        .error e := by
      rw [← hr]
      unfold check_foreach_api_restrictions2 TORCH_CHECK
      simp only [gt_iff_lt, decide_eq_true_eq, if_pos hpos, if_pos hpos2, if_pos hlen]
    obtain ⟨j, hj, hje⟩ := forCheck_error _ _ _ hloop
    have hj1 : j < tensors1.length := List.mem_range.mp hj
    have hj2 : j < tensors2.length := hlen ▸ hj1
    obtain ⟨hne, he⟩ := check2_body_error tensors1 tensors2 j tensors1[j] tensors2[j] e
      (List.getElem?_eq_getElem hj1) (List.getElem?_eq_getElem hj2) hje
    exact ⟨j, tensors1[j], tensors2[j], List.getElem?_eq_getElem hj1,
      List.getElem?_eq_getElem hj2, hne, by rw [he]⟩

theorem check3_raises_sizeMismatch (tensors1 tensors2 tensors3 : List Tensor)
    (hpos : 0 < tensors1.length) (hlen2 : tensors1.length = tensors2.length)
    (hlen3 : tensors1.length = tensors3.length)
    (hbad : ∃ (i : Nat) (a b c : Tensor),
      tensors1[i]? = some a ∧ tensors2[i]? = some b ∧ tensors3[i]? = some c ∧
      (a.sizes ≠ b.sizes ∨ a.sizes ≠ c.sizes ∨ b.sizes ≠ c.sizes)) :
    ∃ (i : Nat) (a x : Tensor),
      tensors1[i]? = some a ∧ (tensors2[i]? = some x ∨ tensors3[i]? = some x) ∧
      a.sizes ≠ x.sizes ∧
      check_foreach_api_restrictions3 tensors1 tensors2 tensors3 =
        .error (.sizeMismatch a.sizes x.sizes) := by
  have hpos2 : 0 < tensors2.length := hlen2 ▸ hpos
  have hpos3 : 0 < tensors3.length := hlen3 ▸ hpos
  cases hr : check_foreach_api_restrictions3 tensors1 tensors2 tensors3 with
  | ok u =>
    cases u
    obtain ⟨i, a, b, c, ha, hb, hc, hne⟩ := hbad
    obtain ⟨hab, hac⟩ := ((check3_ok_iff _ _ _).mp hr).2.2.2.2.2 i a b c ha hb hc
    rcases hne with h | h | h
    · exact absurd hab h
    · exact absurd hac h
    · exact absurd (hab.symm.trans hac) h
  | error e =>
    have hloop : forCheck (check3_body tensors1 tensors2 tensors3)
        (List.range tensors1.length) = .error e := by
      rw [← hr]
      unfold check_foreach_api_restrictions3 TORCH_CHECK
      simp only [gt_iff_lt, decide_eq_true_eq, if_pos hpos, if_pos hpos2, if_pos hpos3,
        if_pos hlen2, if_pos hlen3]
    obtain ⟨j, hj, hje⟩ := forCheck_error _ _ _ hloop
    have hj1 : j < tensors1.length := List.mem_range.mp hj
    have hj2 : j < tensors2.length := hlen2 ▸ hj1
    have hj3 : j < tensors3.length := hlen3 ▸ hj1
    rcases check3_body_error tensors1 tensors2 tensors3 j tensors1[j] tensors2[j] tensors3[j] e
      (List.getElem?_eq_getElem hj1) (List.getElem?_eq_getElem hj2)
      (List.getElem?_eq_getElem hj3) hje with ⟨hne, he⟩ | ⟨hne, he⟩
    · exact ⟨j, tensors1[j], tensors2[j], List.getElem?_eq_getElem hj1,
        Or.inl (List.getElem?_eq_getElem hj2), hne, by rw [he]⟩
    · exact ⟨j, tensors1[j], tensors3[j], List.getElem?_eq_getElem hj1,
        Or.inr (List.getElem?_eq_getElem hj3), hne, by rw [he]⟩

/-- C15, refuted as stated: no reading of the raised error yields the offending
index. The calls `([x, x], [y, x])` and `([x, x], [x, y])`, with `x` of shape `[2]`
and `y` of shape `[3]`, differ in shape at index 0 only and at index 1 only, and
raise the same error, which names the shapes `[2]` and `[3]` and nothing else. -/
theorem shape_mismatch_error_counterexample :
    ¬ ∃ idx : Err → Nat, ∀ tensors1 tensors2 : List Tensor,
      0 < tensors1.length → tensors1.length = tensors2.length →
      (∃ (i : Nat) (a b : Tensor),
        tensors1[i]? = some a ∧ tensors2[i]? = some b ∧ a.sizes ≠ b.sizes) →
      ∃ (e : Err) (a b : Tensor),
        check_foreach_api_restrictions2 tensors1 tensors2 = .error e ∧
        tensors1[idx e]? = some a ∧ tensors2[idx e]? = some b ∧ a.sizes ≠ b.sizes := by
  rintro ⟨idx, h⟩
  have hA : check_foreach_api_restrictions2 [vec 2, vec 2] [vec 3, vec 2] =
      .error (.sizeMismatch [2] [3]) := rfl
  have hB : check_foreach_api_restrictions2 [vec 2, vec 2] [vec 2, vec 3] =
      .error (.sizeMismatch [2] [3]) := rfl
  obtain ⟨eA, a, b, hrA, ha, hb, hne⟩ := h [vec 2, vec 2] [vec 3, vec 2] (by decide) rfl
    ⟨0, vec 2, vec 3, rfl, rfl, by decide⟩
  obtain ⟨eB, a2, b2, hrB, ha2, hb2, hne2⟩ := h [vec 2, vec 2] [vec 2, vec 3] (by decide) rfl
    ⟨1, vec 2, vec 3, rfl, rfl, by decide⟩
  rw [hA] at hrA
  rw [hB] at hrB
  cases hrA
  cases hrB
  generalize idx (.sizeMismatch [2] [3]) = k at ha hb ha2 hb2
  match k with
  | 0 =>
    simp only [List.getElem?_cons_zero, Option.some.injEq] at ha2 hb2
    subst ha2 hb2
    exact hne2 rfl
  | 1 =>
    simp only [List.getElem?_cons_succ, List.getElem?_cons_zero, Option.some.injEq] at ha hb
    subst ha hb
    exact hne rfl
  | n + 2 => simp at ha

/-- C15, amended: for non-empty lists of equal length in which some co-indexed
tensors differ in shape, the two-list and the three-list validator raise the
shape-mismatch error, and that error carries the two differing shapes of a
co-indexed pair: `tensors1[i]` against `tensors2[i]` or, for three lists, against
`tensors3[i]`. The error does not carry the index. -/
theorem shape_mismatch_error (tensors1 tensors2 tensors3 : List Tensor)
    (hpos : 0 < tensors1.length) :
    (tensors1.length = tensors2.length →
      (∃ (i : Nat) (a b : Tensor),
        tensors1[i]? = some a ∧ tensors2[i]? = some b ∧ a.sizes ≠ b.sizes) →
      ∃ (i : Nat) (a b : Tensor),
        tensors1[i]? = some a ∧ tensors2[i]? = some b ∧ a.sizes ≠ b.sizes ∧
        check_foreach_api_restrictions2 tensors1 tensors2 =
          .error (.sizeMismatch a.sizes b.sizes)) ∧
    (tensors1.length = tensors2.length → tensors1.length = tensors3.length →
      (∃ (i : Nat) (a b c : Tensor),
        tensors1[i]? = some a ∧ tensors2[i]? = some b ∧ tensors3[i]? = some c ∧
        (a.sizes ≠ b.sizes ∨ a.sizes ≠ c.sizes ∨ b.sizes ≠ c.sizes)) →
      ∃ (i : Nat) (a x : Tensor),
        tensors1[i]? = some a ∧ (tensors2[i]? = some x ∨ tensors3[i]? = some x) ∧
        a.sizes ≠ x.sizes ∧
        check_foreach_api_restrictions3 tensors1 tensors2 tensors3 =
          .error (.sizeMismatch a.sizes x.sizes)) :=
  ⟨check2_raises_sizeMismatch tensors1 tensors2 hpos,
   check3_raises_sizeMismatch tensors1 tensors2 tensors3 hpos⟩

/-- C15, an instance: `[x, x]` against `[x, y]`, and against `[x, x]` and `[x, y]`, with
`x` of shape `[2]` and `y` of shape `[3]`. -/
theorem shape_mismatch_error_witness :
    (∃ (i : Nat) (a b : Tensor),
      [vec 2, vec 2][i]? = some a ∧ [vec 2, vec 3][i]? = some b ∧ a.sizes ≠ b.sizes ∧
      check_foreach_api_restrictions2 [vec 2, vec 2] [vec 2, vec 3] =
        .error (.sizeMismatch a.sizes b.sizes)) ∧
    (∃ (i : Nat) (a x : Tensor),
      [vec 2, vec 2][i]? = some a ∧
      ([vec 2, vec 2][i]? = some x ∨ [vec 2, vec 3][i]? = some x) ∧
      a.sizes ≠ x.sizes ∧
      check_foreach_api_restrictions3 [vec 2, vec 2] [vec 2, vec 2] [vec 2, vec 3] =
        .error (.sizeMismatch a.sizes x.sizes)) :=
  ⟨(shape_mismatch_error [vec 2, vec 2] [vec 2, vec 3] [vec 2, vec 3] (by decide)).1 rfl
      ⟨1, vec 2, vec 3, rfl, rfl, by decide⟩,
   (shape_mismatch_error [vec 2, vec 2] [vec 2, vec 2] [vec 2, vec 3] (by decide)).2 rfl rfl
      ⟨1, vec 2, vec 2, vec 3, rfl, rfl, rfl, Or.inr (Or.inl (by decide))⟩⟩

/-! ## Auxiliary facts about the classifier -/

theorem forLoop_spec {α : Type} (body : α → Option Step) (xs : List α)
    (h : ∀ x ∈ xs, body x = some .next ∨ body x = some (.ret false)) :
    ∃ r, forLoop body (some true) xs = some r ∧
      (r = true ↔ ∀ x ∈ xs, body x = some .next) := by
  induction xs with
  | nil => exact ⟨true, rfl, by simp⟩
  | cons x xs ih =>
    rcases h x (List.mem_cons_self _ _) with hx | hx
    · obtain ⟨r, hr, hiff⟩ := ih (fun y hy => h y (List.mem_cons_of_mem _ hy))
      refine ⟨r, ?_, ?_⟩
      · simp only [forLoop, hx]
        exact hr
      · simp only [List.mem_cons, forall_eq_or_imp, hx, true_and]
        exact hiff
    · refine ⟨false, ?_, ?_⟩
      · simp only [forLoop, hx]
      · simp [hx]

theorem has_same_attributes_body_cases (dev : Device) (dt : ScalarType) (st : List Int)
    (t : Tensor) :
    has_same_attributes_body dev dt st t = some .next ∨
      has_same_attributes_body dev dt st t = some (.ret false) := by
  unfold has_same_attributes_body
  split_ifs <;> simp

theorem has_same_attributes_body_next_iff (dev : Device) (dt : ScalarType) (st : List Int)
    (t : Tensor) :
    has_same_attributes_body dev dt st t = some .next ↔ SameAttributes dev dt st t := by
  unfold has_same_attributes_body SameAttributes
  split_ifs <;> simp_all

theorem has_same_attributes_cons (dev : Device) (dt : ScalarType) (t0 : Tensor)
    (ts : List Tensor) :
    ∃ r, has_same_attributes dev dt (t0 :: ts) = some r ∧
      (r = true ↔ ∀ t ∈ t0 :: ts, SameAttributes dev dt t0.strides t) := by
  obtain ⟨r, hr, hiff⟩ := forLoop_spec (has_same_attributes_body dev dt t0.strides) (t0 :: ts)
    (fun t _ => has_same_attributes_body_cases dev dt t0.strides t)
  refine ⟨r, ?_, ?_⟩
  · simp only [has_same_attributes, List.getElem?_cons_zero]
    exact hr
  · rw [hiff]
    constructor
    · intro h t ht
      exact (has_same_attributes_body_next_iff _ _ _ _).mp (h t ht)
    · intro h t ht
      exact (has_same_attributes_body_next_iff _ _ _ _).mpr (h t ht)

theorem unlessSame_cases (same : Option Bool) (k : Option Step) (r : Bool)
    (h : same = some r) (hk : k = some .next ∨ k = some (.ret false)) :
    unlessSame same k = some .next ∨ unlessSame same k = some (.ret false) := by
  subst h
  cases r
  · right
    rfl
  · exact hk

theorem unlessSame_next_iff (same : Option Bool) (k : Option Step) (r : Bool)
    (h : same = some r) :
    unlessSame same k = some .next ↔ r = true ∧ k = some .next := by
  subst h
  cases r <;> simp [unlessSame]

theorem forLoop_range2 {α β : Type} (body : Nat → Option Step) (l1 : List α) (l2 : List β)
    (Q : α → β → Prop) (hlen : l1.length = l2.length)
    (hcases : ∀ (i : Nat) (a : α) (b : β), l1[i]? = some a → l2[i]? = some b →
      (body i = some .next ∨ body i = some (.ret false)))
    (hnext : ∀ (i : Nat) (a : α) (b : β), l1[i]? = some a → l2[i]? = some b →
      (body i = some .next ↔ Q a b)) :
    ∃ r, forLoop body (some true) (List.range l1.length) = some r ∧
      (r = true ↔ ∀ (i : Nat) (a : α) (b : β), l1[i]? = some a → l2[i]? = some b → Q a b) := by
  have hget : ∀ i, i < l1.length → (∃ a, l1[i]? = some a) ∧ ∃ b, l2[i]? = some b := by
    intro i hi
    have hi2 : i < l2.length := hlen ▸ hi
    exact ⟨⟨l1[i], List.getElem?_eq_getElem hi⟩, l2[i], List.getElem?_eq_getElem hi2⟩
  obtain ⟨r, hr, hiff⟩ := forLoop_spec body (List.range l1.length) (by
    intro i hi
    obtain ⟨⟨a, ha⟩, b, hb⟩ := hget i (List.mem_range.mp hi)
    exact hcases i a b ha hb)
  refine ⟨r, hr, ?_⟩
  rw [hiff]
  constructor
  · intro h i a b ha hb
    have hi : i < l1.length := (List.getElem?_eq_some.mp ha).1
    exact (hnext i a b ha hb).mp (h i (List.mem_range.mpr hi))
  · intro h i hi
    obtain ⟨⟨a, ha⟩, b, hb⟩ := hget i (List.mem_range.mp hi)
    exact (hnext i a b ha hb).mpr (h i a b ha hb)

theorem forLoop_range3 {α β γ : Type} (body : Nat → Option Step) (l1 : List α) (l2 : List β)
    (l3 : List γ) (Q : α → β → γ → Prop)
    (hlen2 : l1.length = l2.length) (hlen3 : l1.length = l3.length)
    (hcases : ∀ (i : Nat) (a : α) (b : β) (c : γ),
      l1[i]? = some a → l2[i]? = some b → l3[i]? = some c →
      (body i = some .next ∨ body i = some (.ret false)))
    (hnext : ∀ (i : Nat) (a : α) (b : β) (c : γ),
      l1[i]? = some a → l2[i]? = some b → l3[i]? = some c →
      (body i = some .next ↔ Q a b c)) :
    ∃ r, forLoop body (some true) (List.range l1.length) = some r ∧
      (r = true ↔ ∀ (i : Nat) (a : α) (b : β) (c : γ),
        l1[i]? = some a → l2[i]? = some b → l3[i]? = some c → Q a b c) := by
  have hget : ∀ i, i < l1.length →
      (∃ a, l1[i]? = some a) ∧ (∃ b, l2[i]? = some b) ∧ ∃ c, l3[i]? = some c := by
    intro i hi
    have hi2 : i < l2.length := hlen2 ▸ hi
    have hi3 : i < l3.length := hlen3 ▸ hi
    exact ⟨⟨l1[i], List.getElem?_eq_getElem hi⟩, ⟨l2[i], List.getElem?_eq_getElem hi2⟩,
      l3[i], List.getElem?_eq_getElem hi3⟩
  obtain ⟨r, hr, hiff⟩ := forLoop_spec body (List.range l1.length) (by
    intro i hi
    obtain ⟨⟨a, ha⟩, ⟨b, hb⟩, c, hc⟩ := hget i (List.mem_range.mp hi)
    exact hcases i a b c ha hb hc)
  refine ⟨r, hr, ?_⟩
  rw [hiff]
  constructor
  · intro h i a b c ha hb hc
    have hi : i < l1.length := (List.getElem?_eq_some.mp ha).1
    exact (hnext i a b c ha hb hc).mp (h i (List.mem_range.mpr hi))
  · intro h i hi
    obtain ⟨⟨a, ha⟩, ⟨b, hb⟩, c, hc⟩ := hget i (List.mem_range.mp hi)
    exact (hnext i a b c ha hb hc).mpr (h i a b c ha hb hc)

theorem has_same_attributes_one (dev : Device) (dt : ScalarType) (a : Tensor) :
    ∃ r, has_same_attributes dev dt [a] = some r ∧
      (r = true ↔ SameAttributes dev dt a.strides a) := by
  obtain ⟨r, hr, hiff⟩ := has_same_attributes_cons dev dt a []
  exact ⟨r, hr, by simpa using hiff⟩

theorem has_same_attributes_two (dev : Device) (dt : ScalarType) (a b : Tensor) :
    ∃ r, has_same_attributes dev dt [a, b] = some r ∧
      (r = true ↔ SameAttributes dev dt a.strides a ∧ SameAttributes dev dt a.strides b) := by
  obtain ⟨r, hr, hiff⟩ := has_same_attributes_cons dev dt a [b]
  exact ⟨r, hr, by simpa using hiff⟩

theorem has_same_attributes_three (dev : Device) (dt : ScalarType) (a b c : Tensor) :
    ∃ r, has_same_attributes dev dt [a, b, c] = some r ∧
      (r = true ↔ SameAttributes dev dt a.strides a ∧ SameAttributes dev dt a.strides b ∧
        SameAttributes dev dt a.strides c) := by
  obtain ⟨r, hr, hiff⟩ := has_same_attributes_cons dev dt a [b, c]
  exact ⟨r, hr, by simpa using hiff⟩

theorem promote_step_cases (w : Bool) :
    (if w then some (Step.ret false) else some Step.next) = some .next ∨
      (if w then some (Step.ret false) else some Step.next) = some (.ret false) := by
  cases w <;> simp

theorem promote_step_next_iff (w : Bool) :
    (if w then some (Step.ret false) else some Step.next) = some .next ↔ w = false := by
  cases w <;> simp

theorem division_step_cases (d g : Bool) :
    (if d then (if g then some (Step.ret false) else some Step.next) else some Step.next) =
        some .next ∨
      (if d then (if g then some (Step.ret false) else some Step.next) else some Step.next) =
        some (.ret false) := by
  cases d <;> cases g <;> simp

theorem division_step_next_iff (d g : Bool) :
    (if d then (if g then some (Step.ret false) else some Step.next) else some Step.next) =
        some .next ↔ ¬ (d = true ∧ g = true) := by
  cases d <;> cases g <;> simp

theorem route1_body_cases (dev : Device) (dt : ScalarType) (t : Tensor) :
    route1_body dev dt t = some .next ∨ route1_body dev dt t = some (.ret false) := by
  obtain ⟨r, hr, -⟩ := has_same_attributes_one dev dt t
  exact unlessSame_cases _ _ r hr (Or.inl rfl)

theorem route1_body_next_iff (dev : Device) (dt : ScalarType) (t : Tensor) :
    route1_body dev dt t = some .next ↔ SameAttributes dev dt t.strides t := by
  obtain ⟨r, hr, hiff⟩ := has_same_attributes_one dev dt t
  unfold route1_body
  rw [unlessSame_next_iff _ _ r hr, hiff]
  simp

theorem route1_scalar_body_cases (dev : Device) (dt : ScalarType) (s : Scalar) (d : Bool)
    (t : Tensor) :
    route1_scalar_body dev dt s d t = some .next ∨
      route1_scalar_body dev dt s d t = some (.ret false) := by
  obtain ⟨r, hr, -⟩ := has_same_attributes_one dev dt t
  exact unlessSame_cases _ _ r hr (promote_step_cases _)

theorem route1_scalar_body_next_iff (dev : Device) (dt : ScalarType) (s : Scalar) (d : Bool)
    (t : Tensor) :
    route1_scalar_body dev dt s d t = some .next ↔
      SameAttributes dev dt t.strides t ∧ will_promote_tensor t s d = false := by
  obtain ⟨r, hr, hiff⟩ := has_same_attributes_one dev dt t
  unfold route1_scalar_body
  rw [unlessSame_next_iff _ _ r hr, hiff, promote_step_next_iff]

theorem route1_scalars_body_cases (tensors : List Tensor) (scalars : List Scalar) (d : Bool)
    (i : Nat) (t : Tensor) (s : Scalar) (ht : tensors[i]? = some t) (hs : scalars[i]? = some s) :
    route1_scalars_body tensors scalars d i = some .next ∨
      route1_scalars_body tensors scalars d i = some (.ret false) := by
  unfold route1_scalars_body
  rw [ht, hs]
  simp only
  split_ifs <;> simp

theorem route1_scalars_body_next_iff (tensors : List Tensor) (scalars : List Scalar) (d : Bool)
    (i : Nat) (t : Tensor) (s : Scalar) (ht : tensors[i]? = some t) (hs : scalars[i]? = some s) :
    route1_scalars_body tensors scalars d i = some .next ↔
      will_promote_tensor t s d = false ∧ s.isComplex = false ∧
        isComplexType t.scalar_type = false := by
  unfold route1_scalars_body
  rw [ht, hs]
  simp only
  cases will_promote_tensor t s d <;> cases s.isComplex <;>
    cases isComplexType t.scalar_type <;> simp

theorem route2_body_cases (dev : Device) (dt : ScalarType) (tensors1 tensors2 : List Tensor)
    (d : Bool) (i : Nat) (a b : Tensor)
    (ha : tensors1[i]? = some a) (hb : tensors2[i]? = some b) :
    route2_body dev dt tensors1 tensors2 d i = some .next ∨
      route2_body dev dt tensors1 tensors2 d i = some (.ret false) := by
  obtain ⟨r, hr, -⟩ := has_same_attributes_two dev dt a b
  unfold route2_body
  rw [ha, hb]
  exact unlessSame_cases _ _ r hr (division_step_cases _ _)

theorem route2_body_next_iff (dev : Device) (dt : ScalarType) (tensors1 tensors2 : List Tensor)
    (d : Bool) (i : Nat) (a b : Tensor)
    (ha : tensors1[i]? = some a) (hb : tensors2[i]? = some b) :
    route2_body dev dt tensors1 tensors2 d i = some .next ↔
      (SameAttributes dev dt a.strides a ∧ SameAttributes dev dt a.strides b) ∧
        ¬ (d = true ∧ isIntegralType a.scalar_type true = true) := by
  obtain ⟨r, hr, hiff⟩ := has_same_attributes_two dev dt a b
  unfold route2_body
  rw [ha, hb]
  simp only
  rw [unlessSame_next_iff _ _ r hr, hiff, division_step_next_iff]

theorem route2_scalar_body_cases (dev : Device) (dt : ScalarType)
    (tensors1 tensors2 : List Tensor) (s : Scalar) (i : Nat) (a b : Tensor)
    (ha : tensors1[i]? = some a) (hb : tensors2[i]? = some b) :
    route2_scalar_body dev dt tensors1 tensors2 s i = some .next ∨
      route2_scalar_body dev dt tensors1 tensors2 s i = some (.ret false) := by
  obtain ⟨r, hr, -⟩ := has_same_attributes_two dev dt a b
  unfold route2_scalar_body
  rw [ha, hb]
  exact unlessSame_cases _ _ r hr (promote_step_cases _)

theorem route2_scalar_body_next_iff (dev : Device) (dt : ScalarType)
    (tensors1 tensors2 : List Tensor) (s : Scalar) (i : Nat) (a b : Tensor)
    (ha : tensors1[i]? = some a) (hb : tensors2[i]? = some b) :
    route2_scalar_body dev dt tensors1 tensors2 s i = some .next ↔
      (SameAttributes dev dt a.strides a ∧ SameAttributes dev dt a.strides b) ∧
        will_promote_tensor a s false = false := by
  obtain ⟨r, hr, hiff⟩ := has_same_attributes_two dev dt a b
  unfold route2_scalar_body
  rw [ha, hb]
  simp only
  rw [unlessSame_next_iff _ _ r hr, hiff, promote_step_next_iff]

theorem route3_body_cases (dev : Device) (dt : ScalarType)
    (tensors1 tensors2 tensors3 : List Tensor) (i : Nat) (a b c : Tensor)
    (ha : tensors1[i]? = some a) (hb : tensors2[i]? = some b) (hc : tensors3[i]? = some c) :
    route3_body dev dt tensors1 tensors2 tensors3 i = some .next ∨
      route3_body dev dt tensors1 tensors2 tensors3 i = some (.ret false) := by
  obtain ⟨r, hr, -⟩ := has_same_attributes_three dev dt a b c
  unfold route3_body
  rw [ha, hb, hc]
  exact unlessSame_cases _ _ r hr (Or.inl rfl)

theorem route3_body_next_iff (dev : Device) (dt : ScalarType)
    (tensors1 tensors2 tensors3 : List Tensor) (i : Nat) (a b c : Tensor)
    (ha : tensors1[i]? = some a) (hb : tensors2[i]? = some b) (hc : tensors3[i]? = some c) :
    route3_body dev dt tensors1 tensors2 tensors3 i = some .next ↔
      SameAttributes dev dt a.strides a ∧ SameAttributes dev dt a.strides b ∧
        SameAttributes dev dt a.strides c := by
  obtain ⟨r, hr, hiff⟩ := has_same_attributes_three dev dt a b c
  unfold route3_body
  rw [ha, hb, hc]
  simp only
  rw [unlessSame_next_iff _ _ r hr, hiff]
  simp

theorem route3_scalar_body_cases (dev : Device) (dt : ScalarType)
    (tensors1 tensors2 tensors3 : List Tensor) (s : Scalar) (i : Nat) (a b c : Tensor)
    (ha : tensors1[i]? = some a) (hb : tensors2[i]? = some b) (hc : tensors3[i]? = some c) :
    route3_scalar_body dev dt tensors1 tensors2 tensors3 s i = some .next ∨
      route3_scalar_body dev dt tensors1 tensors2 tensors3 s i = some (.ret false) := by
  obtain ⟨r, hr, -⟩ := has_same_attributes_three dev dt a b c
  unfold route3_scalar_body
  rw [ha, hb, hc]
  exact unlessSame_cases _ _ r hr (promote_step_cases _)

theorem route3_scalar_body_next_iff (dev : Device) (dt : ScalarType)
    (tensors1 tensors2 tensors3 : List Tensor) (s : Scalar) (i : Nat) (a b c : Tensor)
    (ha : tensors1[i]? = some a) (hb : tensors2[i]? = some b) (hc : tensors3[i]? = some c) :
    route3_scalar_body dev dt tensors1 tensors2 tensors3 s i = some .next ↔
      (SameAttributes dev dt a.strides a ∧ SameAttributes dev dt a.strides b ∧
        SameAttributes dev dt a.strides c) ∧ will_promote_tensor a s false = false := by
  obtain ⟨r, hr, hiff⟩ := has_same_attributes_three dev dt a b c
  unfold route3_scalar_body
  rw [ha, hb, hc]
  simp only
  rw [unlessSame_next_iff _ _ r hr, hiff, promote_step_next_iff]

theorem route1_spec (t0 : Tensor) (ts : List Tensor) :
    ∃ r, can_use_fast_route false (t0 :: ts) = some r ∧
      (r = true ↔ ∀ t ∈ t0 :: ts, SameAttributes t0.device t0.dtype t.strides t) := by
  obtain ⟨r, hr, hiff⟩ := forLoop_spec (route1_body t0.device t0.dtype) (t0 :: ts)
    (fun t _ => route1_body_cases _ _ t)
  refine ⟨r, ?_, ?_⟩
  · simp only [can_use_fast_route, Bool.false_eq_true, if_false, List.getElem?_cons_zero]
    exact hr
  · rw [hiff]
    exact forall₂_congr (fun t _ => route1_body_next_iff _ _ t)

theorem route1_scalar_spec (t0 : Tensor) (ts : List Tensor) (s : Scalar) (d : Bool) :
    ∃ r, can_use_fast_route_scalar false (t0 :: ts) s d = some r ∧
      (r = true ↔ ∀ t ∈ t0 :: ts,
        SameAttributes t0.device t0.dtype t.strides t ∧ will_promote_tensor t s d = false) := by
  obtain ⟨r, hr, hiff⟩ := forLoop_spec (route1_scalar_body t0.device t0.dtype s d) (t0 :: ts)
    (fun t _ => route1_scalar_body_cases _ _ _ _ t)
  refine ⟨r, ?_, ?_⟩
  · simp only [can_use_fast_route_scalar, Bool.false_eq_true, if_false,
      List.getElem?_cons_zero]
    exact hr
  · rw [hiff]
    exact forall₂_congr (fun t _ => route1_scalar_body_next_iff _ _ _ _ t)

theorem route1_scalars_spec (tensors : List Tensor) (scalars : List Scalar) (d : Bool)
    (hlen : tensors.length = scalars.length) :
    ∃ r, can_use_fast_route_scalars false tensors scalars d = some r ∧
      (r = true ↔ ∀ (i : Nat) (t : Tensor) (s : Scalar),
        tensors[i]? = some t → scalars[i]? = some s →
        will_promote_tensor t s d = false ∧ s.isComplex = false ∧
          isComplexType t.scalar_type = false) := by
  obtain ⟨r, hr, hiff⟩ := forLoop_range2 (route1_scalars_body tensors scalars d)
    tensors scalars
    (fun t s => will_promote_tensor t s d = false ∧ s.isComplex = false ∧
      isComplexType t.scalar_type = false) hlen
    (fun i t s ht hs => route1_scalars_body_cases _ _ _ i t s ht hs)
    (fun i t s ht hs => route1_scalars_body_next_iff _ _ _ i t s ht hs)
  refine ⟨r, ?_, hiff⟩
  simp only [can_use_fast_route_scalars, Bool.false_eq_true, if_false]
  exact hr

theorem route2_spec (tensors1 tensors2 : List Tensor) (d : Bool) (t0 : Tensor)
    (h0 : tensors1[0]? = some t0) (hlen : tensors1.length = tensors2.length) :
    ∃ r, can_use_fast_route2 false tensors1 tensors2 d = some r ∧
      (r = true ↔ ∀ (i : Nat) (a b : Tensor), tensors1[i]? = some a → tensors2[i]? = some b →
        (SameAttributes t0.device t0.dtype a.strides a ∧
          SameAttributes t0.device t0.dtype a.strides b) ∧
        ¬ (d = true ∧ isIntegralType a.scalar_type true = true)) := by
  obtain ⟨r, hr, hiff⟩ := forLoop_range2
    (route2_body t0.device t0.dtype tensors1 tensors2 d) tensors1 tensors2
    (fun a b => (SameAttributes t0.device t0.dtype a.strides a ∧
      SameAttributes t0.device t0.dtype a.strides b) ∧
      ¬ (d = true ∧ isIntegralType a.scalar_type true = true)) hlen
    (fun i a b ha hb => route2_body_cases _ _ _ _ _ i a b ha hb)
    (fun i a b ha hb => route2_body_next_iff _ _ _ _ _ i a b ha hb)
  refine ⟨r, ?_, hiff⟩
  simp only [can_use_fast_route2, Bool.false_eq_true, if_false, h0]
  exact hr

theorem route2_scalar_spec (tensors1 tensors2 : List Tensor) (s : Scalar) (t0 : Tensor)
    (h0 : tensors1[0]? = some t0) (hlen : tensors1.length = tensors2.length) :
    ∃ r, can_use_fast_route2_scalar false tensors1 tensors2 s = some r ∧
      (r = true ↔ ∀ (i : Nat) (a b : Tensor), tensors1[i]? = some a → tensors2[i]? = some b →
        (SameAttributes t0.device t0.dtype a.strides a ∧
          SameAttributes t0.device t0.dtype a.strides b) ∧
        will_promote_tensor a s false = false) := by
  obtain ⟨r, hr, hiff⟩ := forLoop_range2
    (route2_scalar_body t0.device t0.dtype tensors1 tensors2 s) tensors1 tensors2
    (fun a b => (SameAttributes t0.device t0.dtype a.strides a ∧
      SameAttributes t0.device t0.dtype a.strides b) ∧
      will_promote_tensor a s false = false) hlen
    (fun i a b ha hb => route2_scalar_body_cases _ _ _ _ _ i a b ha hb)
    (fun i a b ha hb => route2_scalar_body_next_iff _ _ _ _ _ i a b ha hb)
  refine ⟨r, ?_, hiff⟩
  simp only [can_use_fast_route2_scalar, Bool.false_eq_true, if_false, h0]
  exact hr

theorem route3_spec (tensors1 tensors2 tensors3 : List Tensor) (t0 : Tensor)
    (h0 : tensors1[0]? = some t0) (hlen2 : tensors1.length = tensors2.length)
    (hlen3 : tensors1.length = tensors3.length) :
    ∃ r, can_use_fast_route3 false tensors1 tensors2 tensors3 = some r ∧
      (r = true ↔ ∀ (i : Nat) (a b c : Tensor),
        tensors1[i]? = some a → tensors2[i]? = some b → tensors3[i]? = some c →
        SameAttributes t0.device t0.dtype a.strides a ∧
          SameAttributes t0.device t0.dtype a.strides b ∧
          SameAttributes t0.device t0.dtype a.strides c) := by
  obtain ⟨r, hr, hiff⟩ := forLoop_range3
    (route3_body t0.device t0.dtype tensors1 tensors2 tensors3) tensors1 tensors2 tensors3
    (fun a b c => SameAttributes t0.device t0.dtype a.strides a ∧
      SameAttributes t0.device t0.dtype a.strides b ∧
      SameAttributes t0.device t0.dtype a.strides c) hlen2 hlen3
    (fun i a b c ha hb hc => route3_body_cases _ _ _ _ _ i a b c ha hb hc)
    (fun i a b c ha hb hc => route3_body_next_iff _ _ _ _ _ i a b c ha hb hc)
  refine ⟨r, ?_, hiff⟩
  simp only [can_use_fast_route3, Bool.false_eq_true, if_false, h0]
  exact hr

theorem route3_scalar_spec (tensors1 tensors2 tensors3 : List Tensor) (s : Scalar)
    (t0 : Tensor) (h0 : tensors1[0]? = some t0) (hlen2 : tensors1.length = tensors2.length)
    (hlen3 : tensors1.length = tensors3.length) :
    ∃ r, can_use_fast_route3_scalar false tensors1 tensors2 tensors3 s = some r ∧
      (r = true ↔ ∀ (i : Nat) (a b c : Tensor),
        tensors1[i]? = some a → tensors2[i]? = some b → tensors3[i]? = some c →
        (SameAttributes t0.device t0.dtype a.strides a ∧
          SameAttributes t0.device t0.dtype a.strides b ∧
          SameAttributes t0.device t0.dtype a.strides c) ∧
        will_promote_tensor a s false = false) := by
  obtain ⟨r, hr, hiff⟩ := forLoop_range3
    (route3_scalar_body t0.device t0.dtype tensors1 tensors2 tensors3 s)
    tensors1 tensors2 tensors3
    (fun a b c => (SameAttributes t0.device t0.dtype a.strides a ∧
      SameAttributes t0.device t0.dtype a.strides b ∧
      SameAttributes t0.device t0.dtype a.strides c) ∧
      will_promote_tensor a s false = false) hlen2 hlen3
    (fun i a b c ha hb hc => route3_scalar_body_cases _ _ _ _ _ _ i a b c ha hb hc)
    (fun i a b c ha hb hc => route3_scalar_body_next_iff _ _ _ _ _ _ i a b c ha hb hc)
  refine ⟨r, ?_, hiff⟩
  simp only [can_use_fast_route3_scalar, Bool.false_eq_true, if_false, h0]
  exact hr

theorem head_of_pos {α : Type} (l : List α) (h : 0 < l.length) : ∃ x, l[0]? = some x :=
  ⟨l[0], List.getElem?_eq_getElem h⟩

theorem has_same_attributes_spec (dev : Device) (dt : ScalarType) (tensors : List Tensor)
    (t0 : Tensor) (h0 : tensors[0]? = some t0) :
    ∃ r, has_same_attributes dev dt tensors = some r ∧
      (r = true ↔ ∀ t ∈ tensors, SameAttributes dev dt t0.strides t) := by
  cases tensors with
  | nil => simp at h0
  | cons x xs =>
    simp only [List.getElem?_cons_zero, Option.some.injEq] at h0
    subst h0
    exact has_same_attributes_cons dev dt x xs

theorem left_cover2 {α β : Type} (l1 : List α) (l2 : List β) (hlen : l1.length = l2.length)
    (P : α → Prop) :
    (∀ (i : Nat) (a : α) (b : β), l1[i]? = some a → l2[i]? = some b → P a) ↔
      ∀ a ∈ l1, P a := by
  constructor
  · intro h a ha
    obtain ⟨i, hi⟩ := List.mem_iff_getElem?.mp ha
    have hlt : i < l1.length := (List.getElem?_eq_some.mp hi).1
    have hlt2 : i < l2.length := hlen ▸ hlt
    exact h i a l2[i] hi (List.getElem?_eq_getElem hlt2)
  · intro h i a b ha _
    exact h a (List.mem_iff_getElem?.mpr ⟨i, ha⟩)

theorem left_cover3 {α β γ : Type} (l1 : List α) (l2 : List β) (l3 : List γ)
    (hlen2 : l1.length = l2.length) (hlen3 : l1.length = l3.length) (P : α → Prop) :
    (∀ (i : Nat) (a : α) (b : β) (c : γ),
        l1[i]? = some a → l2[i]? = some b → l3[i]? = some c → P a) ↔
      ∀ a ∈ l1, P a := by
  constructor
  · intro h a ha
    obtain ⟨i, hi⟩ := List.mem_iff_getElem?.mp ha
    have hlt : i < l1.length := (List.getElem?_eq_some.mp hi).1
    have hlt2 : i < l2.length := hlen2 ▸ hlt
    have hlt3 : i < l3.length := hlen3 ▸ hlt
    exact h i a l2[i] l3[i] hi (List.getElem?_eq_getElem hlt2) (List.getElem?_eq_getElem hlt3)
  · intro h i a b c ha _ _
    exact h a (List.mem_iff_getElem?.mpr ⟨i, ha⟩)

theorem pair_cover {α : Type} (l1 l2 : List α) (hlen : l1.length = l2.length)
    (P : α → Prop)
    (h : ∀ (i : Nat) (a b : α), l1[i]? = some a → l2[i]? = some b → P a ∧ P b) :
    ∀ t ∈ l1 ++ l2, P t := by
  intro t ht
  rcases List.mem_append.mp ht with ht | ht
  · obtain ⟨i, hi⟩ := List.mem_iff_getElem?.mp ht
    have hlt : i < l1.length := (List.getElem?_eq_some.mp hi).1
    have hlt2 : i < l2.length := hlen ▸ hlt
    exact (h i t l2[i] hi (List.getElem?_eq_getElem hlt2)).1
  · obtain ⟨i, hi⟩ := List.mem_iff_getElem?.mp ht
    have hlt2 : i < l2.length := (List.getElem?_eq_some.mp hi).1
    have hlt : i < l1.length := hlen ▸ hlt2
    exact (h i l1[i] t (List.getElem?_eq_getElem hlt) hi).2

theorem triple_cover {α : Type} (l1 l2 l3 : List α) (hlen2 : l1.length = l2.length)
    (hlen3 : l1.length = l3.length) (P : α → Prop)
    (h : ∀ (i : Nat) (a b c : α),
      l1[i]? = some a → l2[i]? = some b → l3[i]? = some c → P a ∧ P b ∧ P c) :
    ∀ t ∈ l1 ++ l2 ++ l3, P t := by
  intro t ht
  have key : ∀ i, i < l1.length → ∃ a b c,
      l1[i]? = some a ∧ l2[i]? = some b ∧ l3[i]? = some c := by
    intro i hi
    have hi2 : i < l2.length := hlen2 ▸ hi
    have hi3 : i < l3.length := hlen3 ▸ hi
    exact ⟨l1[i], l2[i], l3[i], List.getElem?_eq_getElem hi, List.getElem?_eq_getElem hi2,
      List.getElem?_eq_getElem hi3⟩
  rcases List.mem_append.mp ht with ht | ht
  · rcases List.mem_append.mp ht with ht | ht
    · obtain ⟨i, hi⟩ := List.mem_iff_getElem?.mp ht
      obtain ⟨a, b, c, ha, hb, hc⟩ := key i (List.getElem?_eq_some.mp hi).1
      rw [hi] at ha
      cases ha
      exact (h i t b c hi hb hc).1
    · obtain ⟨i, hi⟩ := List.mem_iff_getElem?.mp ht
      obtain ⟨a, b, c, ha, hb, hc⟩ := key i (hlen2 ▸ (List.getElem?_eq_some.mp hi).1)
      rw [hi] at hb
      cases hb
      exact (h i a t c ha hi hc).2.1
  · obtain ⟨i, hi⟩ := List.mem_iff_getElem?.mp ht
    obtain ⟨a, b, c, ha, hb, hc⟩ := key i (hlen3 ▸ (List.getElem?_eq_some.mp hi).1)
    rw [hi] at hc
    cases hc
    exact (h i a b t ha hb hi).2.2

theorem will_promote_tensor_dtype (a b : Tensor) (s : Scalar) (d : Bool)
    (h : a.dtype = b.dtype) : will_promote_tensor a s d = will_promote_tensor b s d := by
  unfold will_promote_tensor Tensor.scalar_type
  rw [h]

theorem SameAttributes.sharesFirst {t0 t : Tensor} {st : List Int}
    (h : SameAttributes t0.device t0.dtype st t) : SharesFirst t0 t :=
  ⟨h.2.1, h.1, h.2.2.1, h.2.2.2.1⟩

/-! ## The promotion predicate -/

/-- C2: `will_promote_tensor` is true exactly when one of the five promoting
rules applies: complex scalar with integral-or-boolean tensor, complex scalar with
floating tensor, floating scalar with integral-or-boolean tensor, integral
(non-boolean) scalar with boolean tensor, or a division on an integral-or-boolean
tensor. The six listed cases follow. -/
theorem will_promote_tensor_iff (tensor : Tensor) (scalar : Scalar) (division_op : Bool) :
    (will_promote_tensor tensor scalar division_op = true ↔
      (scalar.isComplex = true ∧ isIntegralType tensor.dtype true = true) ∨
      (scalar.isComplex = true ∧ isFloatingType tensor.dtype = true) ∨
      (scalar.isFloatingPoint = true ∧ isIntegralType tensor.dtype true = true) ∨
      (scalar.isIntegral false = true ∧ tensor.dtype = .kBool) ∨
      (division_op = true ∧ isIntegralType tensor.dtype true = true)) ∧
    (scalar.isComplex = true → isIntegralType tensor.dtype false = true →
      will_promote_tensor tensor scalar division_op = true) ∧
    (scalar.isFloatingPoint = true → isIntegralType tensor.dtype false = true →
      will_promote_tensor tensor scalar division_op = true) ∧
    (scalar.isIntegral false = true → tensor.dtype = .kBool →
      will_promote_tensor tensor scalar division_op = true) ∧
    (scalar.isIntegral false = true → isIntegralType tensor.dtype false = true →
      will_promote_tensor tensor scalar true = true) ∧
    (scalar.isIntegral false = true → isIntegralType tensor.dtype false = true →
      will_promote_tensor tensor scalar false = false) ∧
    (scalar.isIntegral false = true → isFloatingType tensor.dtype = true →
      will_promote_tensor tensor scalar division_op = false) := by
  obtain ⟨sz, st, dt, dev, lay, dense⟩ := tensor
  obtain ⟨tag⟩ := scalar
  cases dt <;> cases tag <;> cases division_op <;>
    simp [will_promote_tensor, Tensor.scalar_type, isIntegralType, isFloatingType,
      Scalar.isComplex, Scalar.isFloatingPoint, Scalar.isIntegral, Scalar.isBoolean]

/-- C2, the six listed cases at concrete operands: an int32 tensor, a boolean
tensor and a float32 tensor against a complex, a floating and an integral scalar. -/
theorem will_promote_tensor_iff_witness :
    will_promote_tensor (contig23 .kInt) sComplex false = true ∧
    will_promote_tensor (contig23 .kInt) sFloat false = true ∧
    will_promote_tensor (contig23 .kBool) sInt false = true ∧
    will_promote_tensor (contig23 .kInt) sInt true = true ∧
    will_promote_tensor (contig23 .kInt) sInt false = false ∧
    will_promote_tensor (contig23 .kFloat) sInt true = false :=
  ⟨(will_promote_tensor_iff (contig23 .kInt) sComplex false).2.1 rfl rfl,
   (will_promote_tensor_iff (contig23 .kInt) sFloat false).2.2.1 rfl rfl,
   (will_promote_tensor_iff (contig23 .kBool) sInt false).2.2.2.1 rfl rfl,
   (will_promote_tensor_iff (contig23 .kInt) sInt true).2.2.2.2.1 rfl rfl,
   (will_promote_tensor_iff (contig23 .kInt) sInt false).2.2.2.2.2.1 rfl rfl,
   (will_promote_tensor_iff (contig23 .kFloat) sInt true).2.2.2.2.2.2 rfl rfl⟩

/-! ## The attribute predicate -/

/-- C3: on a non-empty tensor list `has_same_attributes` returns a Boolean, and
that Boolean is true if and only if every tensor of the list has the expected
dtype and the expected device, has strided layout, is non-overlapping-and-dense
and has the strides of the first tensor of the list. -/
theorem has_same_attributes_iff (expected_device : Device) (expected_dtype : ScalarType)
    (t0 : Tensor) (ts : List Tensor) :
    ∃ r, has_same_attributes expected_device expected_dtype (t0 :: ts) = some r ∧
      (r = true ↔ ∀ t ∈ t0 :: ts,
        t.dtype = expected_dtype ∧ t.device = expected_device ∧ t.layout = .kStrided ∧
        t.is_non_overlapping_and_dense = true ∧ t.strides = t0.strides) :=
  has_same_attributes_cons expected_device expected_dtype t0 ts

/-! ## What a positive answer of the classifier implies -/

theorem cons_of_head {α : Type} (l : List α) (x : α) (h : l[0]? = some x) :
    ∃ xs, l = x :: xs := by
  cases l with
  | nil => simp at h
  | cons y ys =>
    simp only [List.getElem?_cons_zero, Option.some.injEq] at h
    exact ⟨ys, by rw [h]⟩

theorem route1_true (tensors : List Tensor) (t0 : Tensor) (h0 : tensors[0]? = some t0)
    (h : can_use_fast_route false tensors = some true) :
    ∀ t ∈ tensors, SharesFirst t0 t := by
  obtain ⟨ts, rfl⟩ := cons_of_head tensors t0 h0
  obtain ⟨r, hr, hiff⟩ := route1_spec t0 ts
  rw [hr, Option.some.injEq] at h
  intro t ht
  exact (hiff.mp h t ht).sharesFirst

theorem route1_scalar_true (tensors : List Tensor) (s : Scalar) (d : Bool) (t0 : Tensor)
    (h0 : tensors[0]? = some t0)
    (h : can_use_fast_route_scalar false tensors s d = some true) :
    ∀ t ∈ tensors, SharesFirst t0 t ∧ will_promote_tensor t s d = false := by
  obtain ⟨ts, rfl⟩ := cons_of_head tensors t0 h0
  obtain ⟨r, hr, hiff⟩ := route1_scalar_spec t0 ts s d
  rw [hr, Option.some.injEq] at h
  intro t ht
  exact ⟨(hiff.mp h t ht).1.sharesFirst, (hiff.mp h t ht).2⟩

theorem route2_true (tensors1 tensors2 : List Tensor) (d : Bool) (t0 : Tensor)
    (h0 : tensors1[0]? = some t0) (hlen : tensors1.length = tensors2.length)
    (h : can_use_fast_route2 false tensors1 tensors2 d = some true) :
    (∀ t ∈ tensors1 ++ tensors2, SharesFirst t0 t) ∧
    (∀ a ∈ tensors1, ¬ (d = true ∧ isIntegralType a.scalar_type true = true)) := by
  obtain ⟨r, hr, hiff⟩ := route2_spec tensors1 tensors2 d t0 h0 hlen
  rw [hr, Option.some.injEq] at h
  have hall := hiff.mp h
  constructor
  · exact pair_cover tensors1 tensors2 hlen (SharesFirst t0)
      (fun i a b ha hb => ⟨(hall i a b ha hb).1.1.sharesFirst,
        (hall i a b ha hb).1.2.sharesFirst⟩)
  · exact (left_cover2 tensors1 tensors2 hlen _).mp (fun i a b ha hb => (hall i a b ha hb).2)

theorem route2_scalar_true (tensors1 tensors2 : List Tensor) (s : Scalar) (t0 : Tensor)
    (h0 : tensors1[0]? = some t0) (hlen : tensors1.length = tensors2.length)
    (h : can_use_fast_route2_scalar false tensors1 tensors2 s = some true) :
    (∀ t ∈ tensors1 ++ tensors2, SharesFirst t0 t) ∧
    (∀ a ∈ tensors1, will_promote_tensor a s false = false) := by
  obtain ⟨r, hr, hiff⟩ := route2_scalar_spec tensors1 tensors2 s t0 h0 hlen
  rw [hr, Option.some.injEq] at h
  have hall := hiff.mp h
  constructor
  · exact pair_cover tensors1 tensors2 hlen (SharesFirst t0)
      (fun i a b ha hb => ⟨(hall i a b ha hb).1.1.sharesFirst,
        (hall i a b ha hb).1.2.sharesFirst⟩)
  · exact (left_cover2 tensors1 tensors2 hlen _).mp (fun i a b ha hb => (hall i a b ha hb).2)

theorem route3_true (tensors1 tensors2 tensors3 : List Tensor) (t0 : Tensor)
    (h0 : tensors1[0]? = some t0) (hlen2 : tensors1.length = tensors2.length)
    (hlen3 : tensors1.length = tensors3.length)
    (h : can_use_fast_route3 false tensors1 tensors2 tensors3 = some true) :
    ∀ t ∈ tensors1 ++ tensors2 ++ tensors3, SharesFirst t0 t := by
  obtain ⟨r, hr, hiff⟩ := route3_spec tensors1 tensors2 tensors3 t0 h0 hlen2 hlen3
  rw [hr, Option.some.injEq] at h
  have hall := hiff.mp h
  exact triple_cover tensors1 tensors2 tensors3 hlen2 hlen3 (SharesFirst t0)
    (fun i a b c ha hb hc => ⟨(hall i a b c ha hb hc).1.sharesFirst,
      (hall i a b c ha hb hc).2.1.sharesFirst, (hall i a b c ha hb hc).2.2.sharesFirst⟩)

theorem route3_scalar_true (tensors1 tensors2 tensors3 : List Tensor) (s : Scalar)
    (t0 : Tensor) (h0 : tensors1[0]? = some t0) (hlen2 : tensors1.length = tensors2.length)
    (hlen3 : tensors1.length = tensors3.length)
    (h : can_use_fast_route3_scalar false tensors1 tensors2 tensors3 s = some true) :
    (∀ t ∈ tensors1 ++ tensors2 ++ tensors3, SharesFirst t0 t) ∧
    (∀ a ∈ tensors1, will_promote_tensor a s false = false) := by
  obtain ⟨r, hr, hiff⟩ := route3_scalar_spec tensors1 tensors2 tensors3 s t0 h0 hlen2 hlen3
  rw [hr, Option.some.injEq] at h
  have hall := hiff.mp h
  constructor
  · exact triple_cover tensors1 tensors2 tensors3 hlen2 hlen3 (SharesFirst t0)
      (fun i a b c ha hb hc => ⟨(hall i a b c ha hb hc).1.1.sharesFirst,
        (hall i a b c ha hb hc).1.2.1.sharesFirst, (hall i a b c ha hb hc).1.2.2.sharesFirst⟩)
  · exact (left_cover3 tensors1 tensors2 tensors3 hlen2 hlen3 _).mp
      (fun i a b c ha hb hc => (hall i a b c ha hb hc).2)

/-- C4: with the platform flag set (the symbol `__HIP_PLATFORM_HCC__` undefined),
for every overload of `can_use_fast_route` other than the one taking one list and
a scalar list, on input accepted by the validator, a true answer implies that
every tensor of every supplied list has the device and the dtype of the first
tensor of the first list, has strided layout and is non-overlapping-and-dense.
Hence a one-list call in which some tensor has another dtype is answered false. -/
theorem fast_route_conservative (tensors1 tensors2 tensors3 : List Tensor)
    (scalar : Scalar) (scalars : List Scalar) (division_op : Bool) (t0 : Tensor)
    (h0 : tensors1[0]? = some t0) :
    (check_foreach_api_restrictions tensors1 = .ok () →
      can_use_fast_route false tensors1 = some true →
      ∀ t ∈ tensors1, SharesFirst t0 t) ∧
    (check_foreach_api_restrictions tensors1 = .ok () →
      can_use_fast_route_scalar false tensors1 scalar division_op = some true →
      ∀ t ∈ tensors1, SharesFirst t0 t) ∧
    (check_foreach_api_restrictions2 tensors1 tensors2 = .ok () →
      can_use_fast_route2 false tensors1 tensors2 division_op = some true →
      ∀ t ∈ tensors1 ++ tensors2, SharesFirst t0 t) ∧
    (check_foreach_api_restrictions2 tensors1 tensors2 = .ok () →
      can_use_fast_route2_scalar false tensors1 tensors2 scalar = some true →
      ∀ t ∈ tensors1 ++ tensors2, SharesFirst t0 t) ∧
    (check_foreach_api_restrictions3 tensors1 tensors2 tensors3 = .ok () →
      can_use_fast_route3 false tensors1 tensors2 tensors3 = some true →
      ∀ t ∈ tensors1 ++ tensors2 ++ tensors3, SharesFirst t0 t) ∧
    (check_foreach_api_restrictions3 tensors1 tensors2 tensors3 = .ok () →
      can_use_fast_route3_scalar false tensors1 tensors2 tensors3 scalar = some true →
      ∀ t ∈ tensors1 ++ tensors2 ++ tensors3, SharesFirst t0 t) ∧
    (check_foreach_api_restrictions3_scalars tensors1 tensors2 tensors3 scalars = .ok () →
      can_use_fast_route3_scalars false tensors1 tensors2 tensors3 scalars = some true →
      ∀ t ∈ tensors1 ++ tensors2 ++ tensors3, SharesFirst t0 t) ∧
    (check_foreach_api_restrictions tensors1 = .ok () →
      (∃ t ∈ tensors1, t.dtype ≠ t0.dtype) →
      can_use_fast_route false tensors1 = some false ∧
      can_use_fast_route_scalar false tensors1 scalar division_op = some false) := by
  refine ⟨?_, ?_, ?_, ?_, ?_, ?_, ?_, ?_⟩
  · intro _ h
    exact route1_true tensors1 t0 h0 h
  · intro _ h t ht
    exact (route1_scalar_true tensors1 scalar division_op t0 h0 h t ht).1
  · intro hv h
    exact (route2_true tensors1 tensors2 division_op t0 h0 ((check2_ok_iff _ _).mp hv).2.2.1 h).1
  · intro hv h
    exact (route2_scalar_true tensors1 tensors2 scalar t0 h0
      ((check2_ok_iff _ _).mp hv).2.2.1 h).1
  · intro hv h
    obtain ⟨-, -, -, e2, e3, -⟩ := (check3_ok_iff _ _ _).mp hv
    exact route3_true tensors1 tensors2 tensors3 t0 h0 e2 e3 h
  · intro hv h
    obtain ⟨-, -, -, e2, e3, -⟩ := (check3_ok_iff _ _ _).mp hv
    exact (route3_scalar_true tensors1 tensors2 tensors3 scalar t0 h0 e2 e3 h).1
  · intro hv h
    obtain ⟨-, -, -, e2, e3, -⟩ := (check3_ok_iff _ _ _).mp ((check3_scalars_ok_iff _ _ _ _).mp hv).1
    exact route3_true tensors1 tensors2 tensors3 t0 h0 e2 e3 h
  · rintro _ ⟨t, ht, hne⟩
    obtain ⟨ts, rfl⟩ := cons_of_head tensors1 t0 h0
    constructor
    · obtain ⟨r, hr, hiff⟩ := route1_spec t0 ts
      cases r with
      | false => exact hr
      | true => exact absurd (hiff.mp rfl t ht).1 hne
    · obtain ⟨r, hr, hiff⟩ := route1_scalar_spec t0 ts scalar division_op
      cases r with
      | false => exact hr
      | true => exact absurd (hiff.mp rfl t ht).1.1 hne

/-- C4, an instance: lists of two float32 tensors pass every overload, and in a
list of three float32 tensors replacing the middle one by a float64 tensor gives
false, with or without a scalar. -/
theorem fast_route_conservative_witness :
    ((∀ t ∈ [contig23 .kFloat, contig23 .kFloat], SharesFirst (contig23 .kFloat) t) ∧
      (∀ t ∈ [contig23 .kFloat, contig23 .kFloat] ++ [contig23 .kFloat, contig23 .kFloat],
        SharesFirst (contig23 .kFloat) t) ∧
      (∀ t ∈ [contig23 .kFloat, contig23 .kFloat] ++ [contig23 .kFloat, contig23 .kFloat] ++
          [contig23 .kFloat, contig23 .kFloat],
        SharesFirst (contig23 .kFloat) t)) ∧
    (can_use_fast_route false [contig23 .kFloat, contig23 .kDouble, contig23 .kFloat] =
        some false ∧
      can_use_fast_route_scalar false [contig23 .kFloat, contig23 .kDouble, contig23 .kFloat]
        sFloat false = some false) :=
  have h := fast_route_conservative [contig23 .kFloat, contig23 .kFloat]
    [contig23 .kFloat, contig23 .kFloat] [contig23 .kFloat, contig23 .kFloat]
    sFloat [sFloat, sFloat] false (contig23 .kFloat) rfl
  have _h1 := h.1 rfl rfl
  have _h2 := h.2.1 rfl rfl
  have _h3 := h.2.2.1 rfl rfl
  have _h4 := h.2.2.2.1 rfl rfl
  have _h5 := h.2.2.2.2.1 rfl rfl
  have _h6 := h.2.2.2.2.2.1 rfl rfl
  have _h7 := h.2.2.2.2.2.2.1 rfl rfl
  ⟨⟨_h2, _h4, _h7⟩,
   (fast_route_conservative [contig23 .kFloat, contig23 .kDouble, contig23 .kFloat] [] []
      sFloat [] false (contig23 .kFloat) rfl).2.2.2.2.2.2.2 rfl
      ⟨contig23 .kDouble, by simp, by decide⟩⟩

/-! ## The one-list overloads -/

/-- C5, refuted as stated: a contiguous and a column-major float32 tensor of the
same shape differ in strides, so `has_same_attributes` on the whole list is false,
yet `can_use_fast_route` on that list is true. -/
theorem one_list_route_counterexample :
    can_use_fast_route false [contig23 .kFloat, colMajor23 .kFloat] = some true ∧
    has_same_attributes (contig23 .kFloat).device (contig23 .kFloat).dtype
      [contig23 .kFloat, colMajor23 .kFloat] = some false ∧
    (colMajor23 .kFloat).strides ≠ (contig23 .kFloat).strides := by
  refine ⟨rfl, rfl, by decide⟩

/-- C5, amended: with the platform flag set, on a non-empty list
`can_use_fast_route(tensors)` returns a Boolean that is true if and only if every
tensor has the device and the dtype of the first tensor, has strided layout and
is non-overlapping-and-dense; strides are not compared across the list. It is the
conjunction over the tensors `t` of `has_same_attributes(tensors[0].device,
tensors[0].dtype, {t})`, each applied to a one-element list. -/
theorem one_list_route_iff (t0 : Tensor) (ts : List Tensor) :
    ∃ r, can_use_fast_route false (t0 :: ts) = some r ∧
      (r = true ↔ ∀ t ∈ t0 :: ts,
        t.device = t0.device ∧ t.dtype = t0.dtype ∧ t.layout = .kStrided ∧
        t.is_non_overlapping_and_dense = true) ∧
      (r = true ↔ ∀ t ∈ t0 :: ts,
        has_same_attributes t0.device t0.dtype [t] = some true) := by
  obtain ⟨r, hr, hiff⟩ := route1_spec t0 ts
  refine ⟨r, hr, ?_, ?_⟩
  · rw [hiff]
    constructor
    · intro h t ht
      exact (h t ht).sharesFirst
    · intro h t ht
      obtain ⟨h1, h2, h3, h4⟩ := h t ht
      exact ⟨h2, h1, h3, h4, rfl⟩
  · rw [hiff]
    constructor
    · intro h t ht
      obtain ⟨q, hq, hqiff⟩ := has_same_attributes_one t0.device t0.dtype t
      rw [hq, hqiff.mpr (h t ht)]
    · intro h t ht
      obtain ⟨q, hq, hqiff⟩ := has_same_attributes_one t0.device t0.dtype t
      have := h t ht
      rw [hq, Option.some.injEq] at this
      exact hqiff.mp this

/-! ## Single-scalar overloads -/

theorem all_not_promote_iff (l : List Tensor) (s : Scalar) (d : Bool) :
    l.all (fun t => !will_promote_tensor t s d) = true ↔
      ∀ t ∈ l, will_promote_tensor t s d = false := by
  simp [List.all_eq_true]

/-- C6: with the platform flag set and validated input, each single-scalar
overload returns the answer of the corresponding scalar-free overload (called
with `division_op = false` for two lists) conjoined with "no tensor of the first
list promotes against the scalar". -/
theorem single_scalar_route_factors (tensors1 tensors2 tensors3 : List Tensor)
    (scalar : Scalar) (division_op : Bool) :
    (check_foreach_api_restrictions tensors1 = .ok () →
      ∃ b, can_use_fast_route false tensors1 = some b ∧
        can_use_fast_route_scalar false tensors1 scalar division_op =
          some (b && tensors1.all (fun t => !will_promote_tensor t scalar division_op))) ∧
    (check_foreach_api_restrictions2 tensors1 tensors2 = .ok () →
      ∃ b, can_use_fast_route2 false tensors1 tensors2 false = some b ∧
        can_use_fast_route2_scalar false tensors1 tensors2 scalar =
          some (b && tensors1.all (fun t => !will_promote_tensor t scalar false))) ∧
    (check_foreach_api_restrictions3 tensors1 tensors2 tensors3 = .ok () →
      ∃ b, can_use_fast_route3 false tensors1 tensors2 tensors3 = some b ∧
        can_use_fast_route3_scalar false tensors1 tensors2 tensors3 scalar =
          some (b && tensors1.all (fun t => !will_promote_tensor t scalar false))) := by
  refine ⟨?_, ?_, ?_⟩
  · intro hv
    obtain ⟨t0, h0⟩ := head_of_pos tensors1 ((check1_ok_iff _).mp hv)
    obtain ⟨ts, rfl⟩ := cons_of_head tensors1 t0 h0
    obtain ⟨b, hb, hbiff⟩ := route1_spec t0 ts
    obtain ⟨r, hr, hriff⟩ := route1_scalar_spec t0 ts scalar division_op
    refine ⟨b, hb, ?_⟩
    rw [hr, Option.some.injEq, Bool.eq_iff_iff, Bool.and_eq_true, hriff, hbiff,
      all_not_promote_iff]
    exact forall₂_and
  · intro hv
    obtain ⟨p1, -, hlen, -⟩ := (check2_ok_iff _ _).mp hv
    obtain ⟨t0, h0⟩ := head_of_pos tensors1 p1
    obtain ⟨b, hb, hbiff⟩ := route2_spec tensors1 tensors2 false t0 h0 hlen
    obtain ⟨r, hr, hriff⟩ := route2_scalar_spec tensors1 tensors2 scalar t0 h0 hlen
    refine ⟨b, hb, ?_⟩
    rw [hr, Option.some.injEq, Bool.eq_iff_iff, Bool.and_eq_true, hriff, hbiff,
      all_not_promote_iff, ← left_cover2 tensors1 tensors2 hlen]
    constructor
    · intro h
      exact ⟨fun i a b ha hb => ⟨(h i a b ha hb).1, by simp⟩,
        fun i a b ha hb => (h i a b ha hb).2⟩
    · rintro ⟨h1, h2⟩ i a b ha hb
      exact ⟨(h1 i a b ha hb).1, h2 i a b ha hb⟩
  · intro hv
    obtain ⟨p1, -, -, hlen2, hlen3, -⟩ := (check3_ok_iff _ _ _).mp hv
    obtain ⟨t0, h0⟩ := head_of_pos tensors1 p1
    obtain ⟨b, hb, hbiff⟩ := route3_spec tensors1 tensors2 tensors3 t0 h0 hlen2 hlen3
    obtain ⟨r, hr, hriff⟩ :=
      route3_scalar_spec tensors1 tensors2 tensors3 scalar t0 h0 hlen2 hlen3
    refine ⟨b, hb, ?_⟩
    rw [hr, Option.some.injEq, Bool.eq_iff_iff, Bool.and_eq_true, hriff, hbiff,
      all_not_promote_iff, ← left_cover3 tensors1 tensors2 tensors3 hlen2 hlen3]
    constructor
    · intro h
      exact ⟨fun i a b c ha hb hc => (h i a b c ha hb hc).1,
        fun i a b c ha hb hc => (h i a b c ha hb hc).2⟩
    · rintro ⟨h1, h2⟩ i a b c ha hb hc
      exact ⟨h1 i a b c ha hb hc, h2 i a b c ha hb hc⟩

/-- C6, an instance: int32 lists, which pass the scalar-free checks, against a
floating scalar, which promotes them. -/
theorem single_scalar_route_factors_witness :
    (∃ b, can_use_fast_route false [contig23 .kInt, contig23 .kInt] = some b ∧
      can_use_fast_route_scalar false [contig23 .kInt, contig23 .kInt] sFloat false =
        some (b && [contig23 .kInt, contig23 .kInt].all
          (fun t => !will_promote_tensor t sFloat false))) ∧
    (∃ b, can_use_fast_route2 false [contig23 .kInt, contig23 .kInt]
        [contig23 .kInt, contig23 .kInt] false = some b ∧
      can_use_fast_route2_scalar false [contig23 .kInt, contig23 .kInt]
        [contig23 .kInt, contig23 .kInt] sFloat =
        some (b && [contig23 .kInt, contig23 .kInt].all
          (fun t => !will_promote_tensor t sFloat false))) ∧
    (∃ b, can_use_fast_route3 false [contig23 .kInt, contig23 .kInt]
        [contig23 .kInt, contig23 .kInt] [contig23 .kInt, contig23 .kInt] = some b ∧
      can_use_fast_route3_scalar false [contig23 .kInt, contig23 .kInt]
        [contig23 .kInt, contig23 .kInt] [contig23 .kInt, contig23 .kInt] sFloat =
        some (b && [contig23 .kInt, contig23 .kInt].all
          (fun t => !will_promote_tensor t sFloat false))) :=
  have h := single_scalar_route_factors [contig23 .kInt, contig23 .kInt]
    [contig23 .kInt, contig23 .kInt] [contig23 .kInt, contig23 .kInt] sFloat false
  ⟨h.1 rfl, h.2.1 rfl, h.2.2 rfl⟩

/-! ## The overload taking one list and a scalar list -/

/-- C7, the code at a failing input: a float32 view that is not dense, paired with
a floating scalar. The single-tensor attribute check on it is false, and
`can_use_fast_route(tensors, scalars, false)` is true all the same: this overload
never calls `has_same_attributes`. -/
theorem scalar_list_route_skips_attributes :
    check_foreach_api_restrictions_scalars [everySecond] [sFloat] = .ok () ∧
    everySecond.is_non_overlapping_and_dense = false ∧
    has_same_attributes everySecond.device everySecond.dtype [everySecond] = some false ∧
    will_promote_tensor everySecond sFloat false = false ∧
    sFloat.isComplex = false ∧ isComplexType everySecond.scalar_type = false ∧
    can_use_fast_route_scalars false [everySecond] [sFloat] false = some true := by
  refine ⟨rfl, rfl, rfl, rfl, rfl, rfl, rfl⟩

theorem route1_scalars_false_of_complex (tensors : List Tensor) (scalars : List Scalar)
    (division_op : Bool) (hlen : tensors.length = scalars.length)
    (hc : ∃ (i : Nat) (t : Tensor) (s : Scalar), tensors[i]? = some t ∧ scalars[i]? = some s ∧
      (s.isComplex = true ∨ isComplexType t.scalar_type = true)) :
    can_use_fast_route_scalars false tensors scalars division_op = some false := by
  obtain ⟨r, hr, hiff⟩ := route1_scalars_spec tensors scalars division_op hlen
  cases r with
  | false => exact hr
  | true =>
    obtain ⟨i, t, s, ht, hs, hbad⟩ := hc
    obtain ⟨-, h1, h2⟩ := hiff.mp rfl i t s ht hs
    rcases hbad with h | h
    · rw [h1] at h
      cases h
    · rw [h2] at h
      cases h

/-- C10: with the platform flag set, for a tensor list and a scalar list of equal
length, a complex scalar or a tensor of complex dtype at any index makes the
scalar-list overload answer false, whatever the division flag. -/
theorem scalar_list_route_rejects_complex (tensors : List Tensor) (scalars : List Scalar)
    (division_op : Bool) (hlen : tensors.length = scalars.length)
    (hc : ∃ (i : Nat) (t : Tensor) (s : Scalar), tensors[i]? = some t ∧ scalars[i]? = some s ∧
      (s.isComplex = true ∨ isComplexType t.scalar_type = true)) :
    can_use_fast_route_scalars false tensors scalars division_op = some false :=
  route1_scalars_false_of_complex tensors scalars division_op hlen hc

/-- C10, an instance: two real tensors, the second paired with a complex scalar. -/
theorem scalar_list_route_rejects_complex_witness :
    can_use_fast_route_scalars false [contig23 .kFloat, contig23 .kFloat] [sFloat, sComplex]
        false = some false ∧
    can_use_fast_route_scalars false [contig23 .kFloat, contig23 .kFloat] [sFloat, sComplex]
        true = some false :=
  ⟨scalar_list_route_rejects_complex [contig23 .kFloat, contig23 .kFloat] [sFloat, sComplex]
      false rfl ⟨1, contig23 .kFloat, sComplex, rfl, rfl, Or.inl rfl⟩,
   scalar_list_route_rejects_complex [contig23 .kFloat, contig23 .kFloat] [sFloat, sComplex]
      true rfl ⟨1, contig23 .kFloat, sComplex, rfl, rfl, Or.inl rfl⟩⟩

/-! ## The two-list and three-list overloads -/

/-- C8: with the platform flag set, for validated lists, if the operation is a
division and some tensor of either list has an integral-or-boolean dtype, the
two-list overload answers false. -/
theorem two_list_division_guard (tensors1 tensors2 : List Tensor)
    (hv : check_foreach_api_restrictions2 tensors1 tensors2 = .ok ())
    (hint : ∃ t ∈ tensors1 ++ tensors2, isIntegralType t.dtype true = true) :
    can_use_fast_route2 false tensors1 tensors2 true = some false := by
  obtain ⟨p1, -, hlen, -⟩ := (check2_ok_iff _ _).mp hv
  obtain ⟨t0, h0⟩ := head_of_pos tensors1 p1
  obtain ⟨r, hr, -⟩ := route2_spec tensors1 tensors2 true t0 h0 hlen
  cases r with
  | false => exact hr
  | true =>
    obtain ⟨hshare, hdiv⟩ := route2_true tensors1 tensors2 true t0 h0 hlen hr
    obtain ⟨t, ht, hti⟩ := hint
    have hmem0 : t0 ∈ tensors1 := List.mem_iff_getElem?.mpr ⟨0, h0⟩
    have h0i : isIntegralType t0.dtype true = true := by
      rw [← (hshare t ht).2.1]
      exact hti
    exact absurd ⟨rfl, h0i⟩ (hdiv t0 hmem0)

/-- C8, an instance: two lists of int32 tensors under a division. -/
theorem two_list_division_guard_witness :
    can_use_fast_route2 false [contig23 .kInt, contig23 .kInt] [contig23 .kInt, contig23 .kInt]
      true = some false :=
  two_list_division_guard [contig23 .kInt, contig23 .kInt] [contig23 .kInt, contig23 .kInt] rfl
    ⟨contig23 .kInt, by simp, rfl⟩

/-- C9: with the platform flag set, on a validated triple of lists the three-list
overload returns a Boolean that is true if and only if at every index the three
co-indexed tensors all have the device and the dtype of `tensors1[0]`, all have
strided layout, are all non-overlapping-and-dense, and have identical strides. In
particular it is true when every tensor of the three lists has the dtype, the
device and the strides of `tensors1[0]` and is strided and dense. -/
theorem three_list_route_iff (tensors1 tensors2 tensors3 : List Tensor) (t0 : Tensor)
    (h0 : tensors1[0]? = some t0)
    (hv : check_foreach_api_restrictions3 tensors1 tensors2 tensors3 = .ok ()) :
    ∃ r, can_use_fast_route3 false tensors1 tensors2 tensors3 = some r ∧
      (r = true ↔ ∀ (i : Nat) (a b c : Tensor),
        tensors1[i]? = some a → tensors2[i]? = some b → tensors3[i]? = some c →
        SharesFirst t0 a ∧ SharesFirst t0 b ∧ SharesFirst t0 c ∧
        a.strides = b.strides ∧ b.strides = c.strides ∧ a.strides = c.strides) ∧
      ((∀ t ∈ tensors1 ++ tensors2 ++ tensors3,
          SharesFirst t0 t ∧ t.strides = t0.strides) → r = true) := by
  obtain ⟨-, -, -, hlen2, hlen3, -⟩ := (check3_ok_iff _ _ _).mp hv
  obtain ⟨r, hr, hiff⟩ := route3_spec tensors1 tensors2 tensors3 t0 h0 hlen2 hlen3
  have hiff2 : r = true ↔ ∀ (i : Nat) (a b c : Tensor),
      tensors1[i]? = some a → tensors2[i]? = some b → tensors3[i]? = some c →
      SharesFirst t0 a ∧ SharesFirst t0 b ∧ SharesFirst t0 c ∧
      a.strides = b.strides ∧ b.strides = c.strides ∧ a.strides = c.strides := by
    rw [hiff]
    constructor
    · intro h i a b c ha hb hc
      obtain ⟨sa, sb, sc⟩ := h i a b c ha hb hc
      exact ⟨sa.sharesFirst, sb.sharesFirst, sc.sharesFirst, sb.2.2.2.2.symm,
        sb.2.2.2.2.trans sc.2.2.2.2.symm, sc.2.2.2.2.symm⟩
    · intro h i a b c ha hb hc
      obtain ⟨⟨a1, a2, a3, a4⟩, ⟨b1, b2, b3, b4⟩, ⟨c1, c2, c3, c4⟩, eab, -, eac⟩ :=
        h i a b c ha hb hc
      exact ⟨⟨a2, a1, a3, a4, rfl⟩, ⟨b2, b1, b3, b4, eab.symm⟩, ⟨c2, c1, c3, c4, eac.symm⟩⟩
  refine ⟨r, hr, hiff2, ?_⟩
  intro hall
  rw [hiff2]
  intro i a b c ha hb hc
  have ma : a ∈ tensors1 ++ tensors2 ++ tensors3 :=
    List.mem_append_left _ (List.mem_append_left _ (List.mem_iff_getElem?.mpr ⟨i, ha⟩))
  have mb : b ∈ tensors1 ++ tensors2 ++ tensors3 :=
    List.mem_append_left _ (List.mem_append_right _ (List.mem_iff_getElem?.mpr ⟨i, hb⟩))
  have mc : c ∈ tensors1 ++ tensors2 ++ tensors3 :=
    List.mem_append_right _ (List.mem_iff_getElem?.mpr ⟨i, hc⟩)
  exact ⟨(hall a ma).1, (hall b mb).1, (hall c mc).1,
    (hall a ma).2.trans (hall b mb).2.symm, (hall b mb).2.trans (hall c mc).2.symm,
    (hall a ma).2.trans (hall c mc).2.symm⟩

/-- C9, an instance: three lists of two contiguous float32 tensors give true. -/
theorem three_list_route_iff_witness :
    can_use_fast_route3 false [contig23 .kFloat, contig23 .kFloat]
      [contig23 .kFloat, contig23 .kFloat] [contig23 .kFloat, contig23 .kFloat] = some true := by
  obtain ⟨r, hr, -, hpos⟩ := three_list_route_iff [contig23 .kFloat, contig23 .kFloat]
    [contig23 .kFloat, contig23 .kFloat] [contig23 .kFloat, contig23 .kFloat]
    (contig23 .kFloat) rfl rfl
  rw [hr, hpos (by
    intro t ht
    simp only [List.cons_append, List.nil_append, List.mem_cons, List.mem_singleton,
      or_self, List.not_mem_nil, or_false] at ht
    subst ht
    exact ⟨⟨rfl, rfl, rfl, rfl⟩, rfl⟩)]

/-! ## Scenarios for a single scalar -/

theorem not_promote_floating (t : Tensor) (s : Scalar)
    (ht : isFloatingType t.dtype = true) (hs : s.isFloatingPoint = true) :
    will_promote_tensor t s false = false := by
  obtain ⟨sz, st, dt, dev, lay, dense⟩ := t
  obtain ⟨tag⟩ := s
  cases dt <;> cases tag <;>
    simp_all [will_promote_tensor, Tensor.scalar_type, isIntegralType, isFloatingType,
      Scalar.isComplex, Scalar.isFloatingPoint, Scalar.isIntegral, Scalar.isBoolean]

theorem not_promote_complex (t : Tensor) (s : Scalar) (d : Bool)
    (ht : isComplexType t.dtype = true) : will_promote_tensor t s d = false := by
  obtain ⟨sz, st, dt, dev, lay, dense⟩ := t
  obtain ⟨tag⟩ := s
  cases dt <;> cases tag <;> cases d <;>
    simp_all [will_promote_tensor, Tensor.scalar_type, isIntegralType, isFloatingType,
      isComplexType, Scalar.isComplex, Scalar.isFloatingPoint, Scalar.isIntegral,
      Scalar.isBoolean]

theorem route1_scalar_true_of (t0 : Tensor) (ts : List Tensor) (s : Scalar) (d : Bool)
    (hall : ∀ t ∈ t0 :: ts, SameAttributes t0.device t0.dtype t0.strides t)
    (hw : ∀ t ∈ t0 :: ts, will_promote_tensor t s d = false) :
    can_use_fast_route_scalar false (t0 :: ts) s d = some true := by
  obtain ⟨r, hr, hiff⟩ := route1_scalar_spec t0 ts s d
  rw [hr, hiff.mpr]
  intro t ht
  obtain ⟨h1, h2, h3, h4, h5⟩ := hall t ht
  exact ⟨⟨h1, h2, h3, h4, rfl⟩, hw t ht⟩

/-- C11: with the platform flag set, for a non-empty list whose tensors all have
one floating dtype, one device, strided layout, the non-overlapping-and-dense
flag and identical strides, and for a floating-point scalar,
`can_use_fast_route(tensors, scalar, false)` is true. -/
theorem single_scalar_route_floating (t0 : Tensor) (ts : List Tensor) (scalar : Scalar)
    (hfloat : isFloatingType t0.dtype = true)
    (hall : ∀ t ∈ t0 :: ts,
      t.dtype = t0.dtype ∧ t.device = t0.device ∧ t.layout = .kStrided ∧
      t.is_non_overlapping_and_dense = true ∧ t.strides = t0.strides)
    (hs : scalar.isFloatingPoint = true) :
    can_use_fast_route_scalar false (t0 :: ts) scalar false = some true := by
  refine route1_scalar_true_of t0 ts scalar false hall ?_
  intro t ht
  refine not_promote_floating t scalar ?_ hs
  rw [(hall t ht).1]
  exact hfloat

/-- C11, the scenario: three contiguous float32 CPU tensors of one shape and a
floating scalar. -/
theorem single_scalar_route_floating_witness :
    can_use_fast_route_scalar false [contig23 .kFloat, contig23 .kFloat, contig23 .kFloat]
      sFloat false = some true :=
  single_scalar_route_floating (contig23 .kFloat) [contig23 .kFloat, contig23 .kFloat] sFloat
    rfl (by
      intro t ht
      simp only [List.mem_cons, List.mem_singleton, or_self, List.not_mem_nil, or_false] at ht
      subst ht
      exact ⟨rfl, rfl, rfl, rfl, rfl⟩) rfl

/-! ## Delegation and the platform gate -/

/-- C12: the overload taking three lists and a scalar list returns what the plain
three-list overload returns; its result does not depend on the scalar list. -/
theorem three_list_scalars_route_delegates (HIP_PLATFORM_HCC : Bool)
    (tensors1 tensors2 tensors3 : List Tensor) (scalars scalars2 : List Scalar) :
    can_use_fast_route3_scalars HIP_PLATFORM_HCC tensors1 tensors2 tensors3 scalars =
      can_use_fast_route3 HIP_PLATFORM_HCC tensors1 tensors2 tensors3 ∧
    can_use_fast_route3_scalars HIP_PLATFORM_HCC tensors1 tensors2 tensors3 scalars =
      can_use_fast_route3_scalars HIP_PLATFORM_HCC tensors1 tensors2 tensors3 scalars2 :=
  ⟨rfl, rfl⟩

/-- C13: when the platform flag is unset (`__HIP_PLATFORM_HCC__` is defined), each
of the eight overloads of `can_use_fast_route` returns false on every input, also
on one that is eligible when the flag is set, such as two contiguous float32
tensors. -/
theorem platform_gate (tensors1 tensors2 tensors3 : List Tensor) (scalar : Scalar)
    (scalars : List Scalar) (division_op : Bool) :
    can_use_fast_route true tensors1 = some false ∧
    can_use_fast_route_scalar true tensors1 scalar division_op = some false ∧
    can_use_fast_route_scalars true tensors1 scalars division_op = some false ∧
    can_use_fast_route2 true tensors1 tensors2 division_op = some false ∧
    can_use_fast_route2_scalar true tensors1 tensors2 scalar = some false ∧
    can_use_fast_route3 true tensors1 tensors2 tensors3 = some false ∧
    can_use_fast_route3_scalar true tensors1 tensors2 tensors3 scalar = some false ∧
    can_use_fast_route3_scalars true tensors1 tensors2 tensors3 scalars = some false ∧
    (can_use_fast_route false [contig23 .kFloat, contig23 .kFloat] = some true ∧
      can_use_fast_route true [contig23 .kFloat, contig23 .kFloat] = some false) :=
  ⟨rfl, rfl, rfl, rfl, rfl, rfl, rfl, rfl, rfl, rfl⟩

/-! ## The order of the promotion rules -/

theorem firstMatch_eq_any (rules : List Rule) (hall : ∀ r ∈ rules, r.promotes = true)
    (dt : ScalarType) (s : Scalar) (d : Bool) :
    firstMatch rules dt s d = rules.any (fun r => r.applies dt s d) := by
  induction rules with
  | nil => rfl
  | cons r rs ih =>
    have hr : r.promotes = true := hall r (List.mem_cons_self _ _)
    have ih2 := ih (fun q hq => hall q (List.mem_cons_of_mem _ hq))
    simp only [firstMatch, List.any_cons, hr, ih2]
    cases r.applies dt s d <;> simp

theorem specRules_promote : ∀ r ∈ specRules, r.promotes = true := by
  intro r hr
  simp only [specRules, List.mem_cons, List.mem_singleton, List.not_mem_nil, or_false] at hr
  rcases hr with h | h | h | h | h <;> subst h <;> rfl

theorem firstMatch_perm (order : List Rule) (hp : order.Perm specRules)
    (dt : ScalarType) (s : Scalar) (d : Bool) :
    firstMatch order dt s d = firstMatch specRules dt s d := by
  have hall : ∀ r ∈ order, r.promotes = true :=
    fun r hr => specRules_promote r (hp.mem_iff.mp hr)
  rw [firstMatch_eq_any order hall, firstMatch_eq_any specRules specRules_promote,
    Bool.eq_iff_iff, List.any_eq_true, List.any_eq_true]
  constructor
  · rintro ⟨r, hr, ha⟩
    exact ⟨r, hp.mem_iff.mp hr, ha⟩
  · rintro ⟨r, hr, ha⟩
    exact ⟨r, hp.mem_iff.mpr hr, ha⟩

theorem firstMatch_specRules (tensor : Tensor) (s : Scalar) (d : Bool) :
    firstMatch specRules tensor.dtype s d = will_promote_tensor tensor s d := by
  obtain ⟨sz, st, dt, dev, lay, dense⟩ := tensor
  obtain ⟨tag⟩ := s
  cases dt <;> cases tag <;> cases d <;> rfl

/-- C19, refuted as stated: no reordering of the five conditional rules (rule 6,
the default, staying last) changes the result at any dtype, scalar and division
flag; in particular not the order with rule 5 first, nor the one with rule 4
before rule 3. Every conditional rule gives the same verdict, "promotes". -/
theorem rule_order_counterexample :
    (¬ ∃ (order : List Rule) (dt : ScalarType) (s : Scalar) (d : Bool),
      order.Perm specRules ∧ firstMatch order dt s d ≠ firstMatch specRules dt s d) ∧
    (∀ (dt : ScalarType) (s : Scalar) (d : Bool),
      firstMatch [rule5, rule1, rule2, rule3, rule4] dt s d = firstMatch specRules dt s d ∧
      firstMatch [rule1, rule2, rule4, rule3, rule5] dt s d = firstMatch specRules dt s d) := by
  constructor
  · rintro ⟨order, dt, s, d, hp, hne⟩
    exact hne (firstMatch_perm order hp dt s d)
  · intro dt s d
    obtain ⟨tag⟩ := s
    cases dt <;> cases tag <;> cases d <;> exact ⟨rfl, rfl⟩

/-- C19, amended: the order of the conditional rules does not matter. Evaluated
first-match-wins in any order, with rule 6 as the final default, rules 1..5 give
what `will_promote_tensor` returns, for every tensor, scalar and division flag. -/
theorem rule_order_irrelevant (order : List Rule) (hp : order.Perm specRules)
    (tensor : Tensor) (scalar : Scalar) (division_op : Bool) :
    firstMatch order tensor.dtype scalar division_op =
      will_promote_tensor tensor scalar division_op := by
  rw [firstMatch_perm order hp, firstMatch_specRules]

/-- C19, an instance: the division rule checked first, on an int32 tensor, a
complex scalar and a division. -/
theorem rule_order_irrelevant_witness :
    firstMatch [rule5, rule1, rule2, rule3, rule4] (contig23 .kInt).dtype sComplex true =
      will_promote_tensor (contig23 .kInt) sComplex true :=
  rule_order_irrelevant [rule5, rule1, rule2, rule3, rule4]
    (List.perm_append_comm :
      ([rule5] ++ [rule1, rule2, rule3, rule4]).Perm ([rule1, rule2, rule3, rule4] ++ [rule5]))
    (contig23 .kInt) sComplex true

/-! ## Sensitivity of the attribute predicate to one tensor -/

theorem has_same_attributes_true (dev : Device) (dt : ScalarType) (tensors : List Tensor)
    (t0 : Tensor) (h0 : tensors[0]? = some t0)
    (h : has_same_attributes dev dt tensors = some true) :
    ∀ t ∈ tensors, SameAttributes dev dt t0.strides t := by
  obtain ⟨r, hr, hiff⟩ := has_same_attributes_spec dev dt tensors t0 h0
  rw [hr, Option.some.injEq] at h
  exact hiff.mp h

theorem has_same_attributes_false_of (dev : Device) (dt : ScalarType) (tensors : List Tensor)
    (t0 : Tensor) (h0 : tensors[0]? = some t0)
    (h : ¬ ∀ t ∈ tensors, SameAttributes dev dt t0.strides t) :
    has_same_attributes dev dt tensors = some false := by
  obtain ⟨r, hr, hiff⟩ := has_same_attributes_spec dev dt tensors t0 h0
  cases r with
  | false => exact hr
  | true => exact absurd (hiff.mp rfl) h

/-- C16, refuted as stated: in a one-tensor list, replacing the contiguous tensor by
a column-major one, which differs from it in strides only, leaves
`has_same_attributes` true: the replaced tensor is its own stride reference. -/
theorem single_change_counterexample :
    has_same_attributes cpu .kFloat [contig23 .kFloat] = some true ∧
    (colMajor23 .kFloat).strides ≠ (contig23 .kFloat).strides ∧
    (colMajor23 .kFloat).sizes = (contig23 .kFloat).sizes ∧
    (colMajor23 .kFloat).dtype = (contig23 .kFloat).dtype ∧
    (colMajor23 .kFloat).device = (contig23 .kFloat).device ∧
    (colMajor23 .kFloat).layout = (contig23 .kFloat).layout ∧
    (colMajor23 .kFloat).is_non_overlapping_and_dense =
      (contig23 .kFloat).is_non_overlapping_and_dense ∧
    has_same_attributes cpu .kFloat ([contig23 .kFloat].set 0 (colMajor23 .kFloat)) =
      some true := by
  refine ⟨rfl, by decide, rfl, rfl, rfl, rfl, rfl, rfl⟩

/-- C16, amended: if `has_same_attributes` is true on a list, replacing the tensor
at an index `k` by one of another device or another dtype makes it false, for the
same expected device and dtype; replacing it by one of other strides makes it
false provided the list holds at least two tensors. -/
theorem single_change_sensitivity (expected_device : Device) (expected_dtype : ScalarType)
    (tensors : List Tensor) (k : Nat) (tk t2 : Tensor)
    (hk : tensors[k]? = some tk)
    (htrue : has_same_attributes expected_device expected_dtype tensors = some true) :
    ((t2.device ≠ tk.device ∨ t2.dtype ≠ tk.dtype) →
      has_same_attributes expected_device expected_dtype (tensors.set k t2) = some false) ∧
    (t2.strides ≠ tk.strides → 2 ≤ tensors.length →
      has_same_attributes expected_device expected_dtype (tensors.set k t2) = some false) := by
  have hklt : k < tensors.length := (List.getElem?_eq_some.mp hk).1
  have hpos : 0 < tensors.length := Nat.lt_of_le_of_lt (Nat.zero_le k) hklt
  obtain ⟨t0, h0⟩ := head_of_pos tensors hpos
  have horig := has_same_attributes_true _ _ tensors t0 h0 htrue
  have hktk := horig tk (List.mem_iff_getElem?.mpr ⟨k, hk⟩)
  have hpos2 : 0 < (tensors.set k t2).length := by
    rw [List.length_set]
    exact hpos
  obtain ⟨u0, hu0⟩ := head_of_pos (tensors.set k t2) hpos2
  have hmem2 : t2 ∈ tensors.set k t2 :=
    List.mem_iff_getElem?.mpr ⟨k, List.getElem?_set_self hklt⟩
  constructor
  · intro hne
    apply has_same_attributes_false_of _ _ _ u0 hu0
    intro hall
    obtain ⟨hdt, hdev, -⟩ := hall t2 hmem2
    rcases hne with h | h
    · exact h (hdev.trans hktk.2.1.symm)
    · exact h (hdt.trans hktk.1.symm)
  · intro hne hlen
    apply has_same_attributes_false_of _ _ _ u0 hu0
    intro hall
    have hs2 : t2.strides = u0.strides := (hall t2 hmem2).2.2.2.2
    have hother : ∃ (j : Nat) (tj : Tensor), j ≠ k ∧ tensors[j]? = some tj := by
      by_cases hk0 : k = 0
      · exact ⟨1, tensors[1], by omega, List.getElem?_eq_getElem (by omega)⟩
      · exact ⟨0, t0, fun h => hk0 h.symm, h0⟩
    obtain ⟨j, tj, hjk, hj⟩ := hother
    have hj2 : (tensors.set k t2)[j]? = some tj := by
      rw [List.getElem?_set_ne (fun h => hjk h.symm)]
      exact hj
    have hsj : tj.strides = u0.strides :=
      (hall tj (List.mem_iff_getElem?.mpr ⟨j, hj2⟩)).2.2.2.2
    have hsj0 : tj.strides = t0.strides :=
      (horig tj (List.mem_iff_getElem?.mpr ⟨j, hj⟩)).2.2.2.2
    exact hne (hs2.trans (hsj.symm.trans (hsj0.trans hktk.2.2.2.2.symm)))

/-- C16, an instance: in a list of two contiguous float32 tensors, the second is
replaced by a float64 tensor, and by a column-major float32 tensor. -/
theorem single_change_sensitivity_witness :
    has_same_attributes cpu .kFloat
        ([contig23 .kFloat, contig23 .kFloat].set 1 (contig23 .kDouble)) = some false ∧
    has_same_attributes cpu .kFloat
        ([contig23 .kFloat, contig23 .kFloat].set 1 (colMajor23 .kFloat)) = some false :=
  ⟨(single_change_sensitivity cpu .kFloat [contig23 .kFloat, contig23 .kFloat] 1
      (contig23 .kFloat) (contig23 .kDouble) rfl rfl).1 (Or.inr (by decide)),
   (single_change_sensitivity cpu .kFloat [contig23 .kFloat, contig23 .kFloat] 1
      (contig23 .kFloat) (colMajor23 .kFloat) rfl rfl).2 (by decide) (by decide)⟩

/-! ## Index safety -/

/-- C17: for either value of the platform flag, each overload of
`can_use_fast_route` called on arguments accepted by the corresponding validator
(the two-list validator for two lists and a scalar, the one-list validator for one
list and a scalar) returns a Boolean: no list is indexed past its end, neither by
the classifier nor inside `has_same_attributes`. -/
theorem fast_route_index_safe (HIP_PLATFORM_HCC : Bool)
    (tensors1 tensors2 tensors3 : List Tensor) (scalar : Scalar) (scalars : List Scalar)
    (division_op : Bool) :
    (check_foreach_api_restrictions tensors1 = .ok () →
      ∃ r, can_use_fast_route HIP_PLATFORM_HCC tensors1 = some r) ∧
    (check_foreach_api_restrictions tensors1 = .ok () →
      ∃ r, can_use_fast_route_scalar HIP_PLATFORM_HCC tensors1 scalar division_op = some r) ∧
    (check_foreach_api_restrictions_scalars tensors1 scalars = .ok () →
      ∃ r, can_use_fast_route_scalars HIP_PLATFORM_HCC tensors1 scalars division_op =
        some r) ∧
    (check_foreach_api_restrictions2 tensors1 tensors2 = .ok () →
      ∃ r, can_use_fast_route2 HIP_PLATFORM_HCC tensors1 tensors2 division_op = some r) ∧
    (check_foreach_api_restrictions2 tensors1 tensors2 = .ok () →
      ∃ r, can_use_fast_route2_scalar HIP_PLATFORM_HCC tensors1 tensors2 scalar = some r) ∧
    (check_foreach_api_restrictions3 tensors1 tensors2 tensors3 = .ok () →
      ∃ r, can_use_fast_route3 HIP_PLATFORM_HCC tensors1 tensors2 tensors3 = some r) ∧
    (check_foreach_api_restrictions3 tensors1 tensors2 tensors3 = .ok () →
      ∃ r, can_use_fast_route3_scalar HIP_PLATFORM_HCC tensors1 tensors2 tensors3 scalar =
        some r) ∧
    (check_foreach_api_restrictions3_scalars tensors1 tensors2 tensors3 scalars = .ok () →
      ∃ r, can_use_fast_route3_scalars HIP_PLATFORM_HCC tensors1 tensors2 tensors3 scalars =
        some r) := by
  cases HIP_PLATFORM_HCC with
  | true =>
    exact ⟨fun _ => ⟨false, rfl⟩, fun _ => ⟨false, rfl⟩, fun _ => ⟨false, rfl⟩,
      fun _ => ⟨false, rfl⟩, fun _ => ⟨false, rfl⟩, fun _ => ⟨false, rfl⟩,
      fun _ => ⟨false, rfl⟩, fun _ => ⟨false, rfl⟩⟩
  | false =>
    have h3 : check_foreach_api_restrictions3 tensors1 tensors2 tensors3 = .ok () →
        ∃ r, can_use_fast_route3 false tensors1 tensors2 tensors3 = some r := by
      intro hv
      obtain ⟨p1, -, -, hlen2, hlen3, -⟩ := (check3_ok_iff _ _ _).mp hv
      obtain ⟨t0, h0⟩ := head_of_pos tensors1 p1
      obtain ⟨r, hr, -⟩ := route3_spec tensors1 tensors2 tensors3 t0 h0 hlen2 hlen3
      exact ⟨r, hr⟩
    refine ⟨?_, ?_, ?_, ?_, ?_, h3, ?_, ?_⟩
    · intro hv
      obtain ⟨t0, h0⟩ := head_of_pos tensors1 ((check1_ok_iff _).mp hv)
      obtain ⟨ts, rfl⟩ := cons_of_head tensors1 t0 h0
      obtain ⟨r, hr, -⟩ := route1_spec t0 ts
      exact ⟨r, hr⟩
    · intro hv
      obtain ⟨t0, h0⟩ := head_of_pos tensors1 ((check1_ok_iff _).mp hv)
      obtain ⟨ts, rfl⟩ := cons_of_head tensors1 t0 h0
      obtain ⟨r, hr, -⟩ := route1_scalar_spec t0 ts scalar division_op
      exact ⟨r, hr⟩
    · intro hv
      obtain ⟨r, hr, -⟩ := route1_scalars_spec tensors1 scalars division_op
        ((check1_scalars_ok_iff _ _).mp hv).2
      exact ⟨r, hr⟩
    · intro hv
      obtain ⟨p1, -, hlen, -⟩ := (check2_ok_iff _ _).mp hv
      obtain ⟨t0, h0⟩ := head_of_pos tensors1 p1
      obtain ⟨r, hr, -⟩ := route2_spec tensors1 tensors2 division_op t0 h0 hlen
      exact ⟨r, hr⟩
    · intro hv
      obtain ⟨p1, -, hlen, -⟩ := (check2_ok_iff _ _).mp hv
      obtain ⟨t0, h0⟩ := head_of_pos tensors1 p1
      obtain ⟨r, hr, -⟩ := route2_scalar_spec tensors1 tensors2 scalar t0 h0 hlen
      exact ⟨r, hr⟩
    · intro hv
      obtain ⟨p1, -, -, hlen2, hlen3, -⟩ := (check3_ok_iff _ _ _).mp hv
      obtain ⟨t0, h0⟩ := head_of_pos tensors1 p1
      obtain ⟨r, hr, -⟩ := route3_scalar_spec tensors1 tensors2 tensors3 scalar t0 h0 hlen2 hlen3
      exact ⟨r, hr⟩
    · intro hv
      exact h3 ((check3_scalars_ok_iff _ _ _ _).mp hv).1

/-- C17, an instance: all eight overloads on validated lists of two tensors, one of
them int32 and one float32, so that the loops stop early. -/
theorem fast_route_index_safe_witness :
    (∃ r, can_use_fast_route false [contig23 .kInt, contig23 .kFloat] = some r) ∧
    (∃ r, can_use_fast_route_scalar false [contig23 .kInt, contig23 .kFloat] sFloat true =
      some r) ∧
    (∃ r, can_use_fast_route_scalars false [contig23 .kInt, contig23 .kFloat]
      [sInt, sFloat] true = some r) ∧
    (∃ r, can_use_fast_route2 false [contig23 .kInt, contig23 .kFloat]
      [contig23 .kInt, contig23 .kFloat] true = some r) ∧
    (∃ r, can_use_fast_route2_scalar false [contig23 .kInt, contig23 .kFloat]
      [contig23 .kInt, contig23 .kFloat] sFloat = some r) ∧
    (∃ r, can_use_fast_route3 false [contig23 .kInt, contig23 .kFloat]
      [contig23 .kInt, contig23 .kFloat] [contig23 .kInt, contig23 .kFloat] = some r) ∧
    (∃ r, can_use_fast_route3_scalar false [contig23 .kInt, contig23 .kFloat]
      [contig23 .kInt, contig23 .kFloat] [contig23 .kInt, contig23 .kFloat] sFloat = some r) ∧
    (∃ r, can_use_fast_route3_scalars false [contig23 .kInt, contig23 .kFloat]
      [contig23 .kInt, contig23 .kFloat] [contig23 .kInt, contig23 .kFloat] [sInt, sFloat] =
      some r) :=
  have h := fast_route_index_safe false [contig23 .kInt, contig23 .kFloat]
    [contig23 .kInt, contig23 .kFloat] [contig23 .kInt, contig23 .kFloat] sFloat
    [sInt, sFloat] true
  ⟨h.1 rfl, h.2.1 rfl, h.2.2.1 rfl, h.2.2.2.1 rfl, h.2.2.2.2.1 rfl, h.2.2.2.2.2.1 rfl,
   h.2.2.2.2.2.2.1 rfl, h.2.2.2.2.2.2.2 rfl⟩

/-! ## Complex operands, and promotion across the lists -/

/-- C18: with the platform flag set, for a non-empty list of tensors sharing one
complex dtype, one device, strided layout, the non-overlapping-and-dense flag and
identical strides, the single-scalar overload is true for every scalar and either
division flag, while the scalar-list overload on the same tensors is false for
every scalar list of matching length. -/
theorem complex_single_scalar_vs_list (t0 : Tensor) (ts : List Tensor) (scalar : Scalar)
    (scalars : List Scalar) (division_op : Bool)
    (hcomplex : isComplexType t0.dtype = true)
    (hall : ∀ t ∈ t0 :: ts,
      t.dtype = t0.dtype ∧ t.device = t0.device ∧ t.layout = .kStrided ∧
      t.is_non_overlapping_and_dense = true ∧ t.strides = t0.strides)
    (hlen : scalars.length = (t0 :: ts).length) :
    can_use_fast_route_scalar false (t0 :: ts) scalar division_op = some true ∧
    can_use_fast_route_scalars false (t0 :: ts) scalars division_op = some false := by
  constructor
  · refine route1_scalar_true_of t0 ts scalar division_op hall ?_
    intro t ht
    refine not_promote_complex t scalar division_op ?_
    rw [(hall t ht).1]
    exact hcomplex
  · have hpos : 0 < scalars.length := by
      rw [hlen]
      exact Nat.succ_pos _
    obtain ⟨s0, hs0⟩ := head_of_pos scalars hpos
    exact route1_scalars_false_of_complex (t0 :: ts) scalars division_op hlen.symm
      ⟨0, t0, s0, List.getElem?_cons_zero, hs0, Or.inr hcomplex⟩

/-- C18, an instance: two contiguous complex64 tensors, against one complex scalar
and against a list of two floating scalars. -/
theorem complex_single_scalar_vs_list_witness :
    can_use_fast_route_scalar false [contig23 .kComplexFloat, contig23 .kComplexFloat]
      sComplex true = some true ∧
    can_use_fast_route_scalars false [contig23 .kComplexFloat, contig23 .kComplexFloat]
      [sFloat, sFloat] true = some false :=
  complex_single_scalar_vs_list (contig23 .kComplexFloat) [contig23 .kComplexFloat] sComplex
    [sFloat, sFloat] true rfl (by
      intro t ht
      simp only [List.mem_cons, List.mem_singleton, or_self, List.not_mem_nil, or_false] at ht
      subst ht
      exact ⟨rfl, rfl, rfl, rfl, rfl⟩) rfl

/-- C20: with the platform flag set and validated input, when the overload for two
lists and a scalar, or for three lists and a scalar, answers true, no tensor of
any of the lists promotes against the scalar (with `division_op = false`): the
attribute check gives every tensor the dtype of `tensors1[0]`, and
`will_promote_tensor` reads nothing of the tensor but its dtype. -/
theorem promotion_covers_all_lists (tensors1 tensors2 tensors3 : List Tensor)
    (scalar : Scalar) :
    (check_foreach_api_restrictions2 tensors1 tensors2 = .ok () →
      can_use_fast_route2_scalar false tensors1 tensors2 scalar = some true →
      ∀ t ∈ tensors1 ++ tensors2, will_promote_tensor t scalar false = false) ∧
    (check_foreach_api_restrictions3 tensors1 tensors2 tensors3 = .ok () →
      can_use_fast_route3_scalar false tensors1 tensors2 tensors3 scalar = some true →
      ∀ t ∈ tensors1 ++ tensors2 ++ tensors3, will_promote_tensor t scalar false = false) ∧
    (∀ (a b : Tensor) (d : Bool), a.dtype = b.dtype →
      will_promote_tensor a scalar d = will_promote_tensor b scalar d) := by
  refine ⟨?_, ?_, ?_⟩
  · intro hv h t ht
    obtain ⟨p1, -, hlen, -⟩ := (check2_ok_iff _ _).mp hv
    obtain ⟨t0, h0⟩ := head_of_pos tensors1 p1
    obtain ⟨hshare, hw⟩ := route2_scalar_true tensors1 tensors2 scalar t0 h0 hlen h
    rw [will_promote_tensor_dtype t t0 scalar false (hshare t ht).2.1]
    exact hw t0 (List.mem_iff_getElem?.mpr ⟨0, h0⟩)
  · intro hv h t ht
    obtain ⟨p1, -, -, hlen2, hlen3, -⟩ := (check3_ok_iff _ _ _).mp hv
    obtain ⟨t0, h0⟩ := head_of_pos tensors1 p1
    obtain ⟨hshare, hw⟩ :=
      route3_scalar_true tensors1 tensors2 tensors3 scalar t0 h0 hlen2 hlen3 h
    rw [will_promote_tensor_dtype t t0 scalar false (hshare t ht).2.1]
    exact hw t0 (List.mem_iff_getElem?.mpr ⟨0, h0⟩)
  · intro a b d h
    exact will_promote_tensor_dtype a b scalar d h

/-- C20, an instance: lists of two contiguous float32 tensors and a floating
scalar. -/
theorem promotion_covers_all_lists_witness :
    (∀ t ∈ [contig23 .kFloat, contig23 .kFloat] ++ [contig23 .kFloat, contig23 .kFloat],
      will_promote_tensor t sFloat false = false) ∧
    (∀ t ∈ [contig23 .kFloat, contig23 .kFloat] ++ [contig23 .kFloat, contig23 .kFloat] ++
        [contig23 .kFloat, contig23 .kFloat],
      will_promote_tensor t sFloat false = false) :=
  have h := promotion_covers_all_lists [contig23 .kFloat, contig23 .kFloat]
    [contig23 .kFloat, contig23 .kFloat] [contig23 .kFloat, contig23 .kFloat] sFloat
  ⟨h.1 rfl rfl, h.2.1 rfl rfl⟩

end ForeachUtils
